import Mathlib

/-!
# Chameleon: the profile consistency checker and the session service worker

A shallow embedding of `content/modules/utils/consistency-checker.js`
(class `ConsistencyChecker`) and of the session functions of
`background/service-worker.js`, and theorems about them.

Conventions of the embedding

* A JavaScript string is a Lean `String`; `toLowerCase` acts on the ASCII
  letters, which is the alphabet of platform names, user agents and renderer
  names.
* A numeric property is an `Option ℚ`: `some q` is the number `q`, `none` is
  `undefined` (or `NaN`), for which `<`, `>` and `===` against a number are
  all false and `!==` is true.
* An object-valued property is an `Option`: reading a property of `none`
  raises a `TypeError`, modelled by `Except.error` carrying the message.
-/

namespace Chameleon

/-! ## JavaScript primitives used by the rules -/

/-- A numeric property of the profile; `none` is `undefined`. -/
abbrev Num := Option ℚ

/-- The JavaScript comparison `a > b` on numeric properties. -/
def Num.gt (a b : Num) : Bool :=
  match a, b with
  | some x, some y => decide (x > y)
  | _, _ => false

/-- The JavaScript comparison `a < b` on numeric properties. -/
def Num.lt (a b : Num) : Bool :=
  match a, b with
  | some x, some y => decide (x < y)
  | _, _ => false

/-- The JavaScript comparison `a === k` against a numeric literal `k`. -/
def Num.strictEq (a : Num) (k : ℚ) : Bool :=
  match a with
  | some x => decide (x = k)
  | none => false

/-- The JavaScript comparison `a !== k` against a numeric literal `k`. -/
def Num.strictNe (a : Num) (k : ℚ) : Bool := !(a.strictEq k)

/-- Method `String.prototype.toLowerCase` (ASCII letters). -/
def toLowerCase (s : String) : String := ⟨s.data.map Char.toLower⟩

/-- Whether the first list of characters starts the second one. -/
def startsWithChars : List Char → List Char → Bool
  | [], _ => true
  | _ :: _, [] => false
  | a :: as, b :: bs => a == b && startsWithChars as bs

/-- Whether the first list of characters occurs contiguously in the second. -/
def includesChars (sub : List Char) : List Char → Bool
  | [] => sub.isEmpty
  | c :: cs => startsWithChars sub (c :: cs) || includesChars sub cs

/-- Method `String.prototype.includes`: `s.includes(sub)`. -/
def includes (s sub : String) : Bool := includesChars sub.data s.data

/-- Method `String.prototype.startsWith`: `s.startsWith(p)`. -/
def startsWith (s p : String) : Bool := startsWithChars p.data s.data

/-- The expression `s.split("-")[0]`: the text before the first hyphen. -/
def splitHyphenFirst (s : String) : String := ⟨s.data.takeWhile (fun c => c != '-')⟩

/-- Reading property `key` through an object reference that may be
`undefined`: JavaScript raises a `TypeError` on `undefined`. -/
def readThrough {α : Type} (o : Option α) (key : String) : Except String α :=
  match o with
  | some v => .ok v
  | none => .error ("Cannot read properties of undefined (reading " ++ key ++ ")")

/-! ## The profile -/

/-- The navigator facet of a profile. -/
structure Navigator where
  platform : Option String
  userAgent : Option String
  language : Option String
  hardwareConcurrency : Num
  deviceMemory : Num
  maxTouchPoints : Num
  plugins : Option (List String)
  deriving DecidableEq

/-- The screen facet of a profile. -/
structure Screen where
  width : Num
  height : Num
  colorDepth : Num
  deriving DecidableEq

/-- The webgl facet of a profile. -/
structure WebGL where
  vendor : Option String
  renderer : Option String
  deriving DecidableEq

/-- The timezone facet of a profile. -/
structure Timezone where
  name : Option String
  deriving DecidableEq

/-- The fonts facet of a profile. -/
structure Fonts where
  available : Option (List String)
  deriving DecidableEq

/-- The battery facet of a profile. -/
structure Battery where
  level : Num
  deriving DecidableEq

/-- A profile: every facet may be missing (`undefined`). -/
structure Profile where
  navigator : Option Navigator
  screen : Option Screen
  webgl : Option WebGL
  timezone : Option Timezone
  fonts : Option Fonts
  battery : Option Battery
  deriving DecidableEq

/-- The expression `profile.navigator.platform.toLowerCase()`. -/
def platformLower (profile : Profile) : Except String String := do
  let nav ← readThrough profile.navigator "platform"
  let platform ← readThrough nav.platform "toLowerCase"
  pure (toLowerCase platform)

/-- The expression `profile.navigator.userAgent.toLowerCase()`. -/
def userAgentLower (profile : Profile) : Except String String := do
  let nav ← readThrough profile.navigator "userAgent"
  let ua ← readThrough nav.userAgent "toLowerCase"
  pure (toLowerCase ua)

/-- The recurring expression
`ua.includes('mobile') || ua.includes('android') || ua.includes('iphone')`. -/
def isMobileUA (ua : String) : Bool :=
  includes ua "mobile" || includes ua "android" || includes ua "iphone"

/-! ## The rules -/

/-- A rule: a named predicate with a severity and a message.  The predicate
either returns a verdict or raises (with the message of the error). -/
structure Rule where
  name : String
  check : Profile → Except String Bool
  severity : String
  message : String

/-- The `check` of rule `Platform-UserAgent`. -/
def checkPlatformUserAgentRule (profile : Profile) : Except String Bool := do
  let platform ← platformLower profile
  let ua ← userAgentLower profile
  if includes platform "win" && !includes ua "windows" then return false
  if includes platform "mac" && !includes ua "mac" then return false
  if includes platform "linux" && !includes ua "linux" then return false
  return true

/-- The `check` of rule `WebGL-Platform`. -/
def checkWebGLPlatformRule (profile : Profile) : Except String Bool := do
  let platform ← platformLower profile
  let webgl ← readThrough profile.webgl "renderer"
  let renderer := toLowerCase (← readThrough webgl.renderer "toLowerCase")
  if includes platform "win" then
    if includes renderer "apple" then return false
    if !includes renderer "direct3d" && !includes renderer "d3d" then return false
  if includes platform "mac" then
    if includes renderer "direct3d" then return false
    if includes renderer "nvidia" || includes renderer "amd" then return false
    if !includes renderer "apple" && !includes renderer "intel" then return false
  if includes platform "linux" then
    if includes renderer "direct3d" then return false
    if includes renderer "apple" then return false
  return true

/-- The `check` of rule `Touch-DeviceType`. -/
def checkTouchDeviceTypeRule (profile : Profile) : Except String Bool := do
  let nav ← readThrough profile.navigator "maxTouchPoints"
  let maxTouchPoints := nav.maxTouchPoints
  let ua ← userAgentLower profile
  let isMobile := isMobileUA ua
  if isMobile && maxTouchPoints.strictEq 0 then return false
  if !isMobile && maxTouchPoints.gt (some 10) then return false
  return true

/-- The `check` of rule `Resolution-DeviceType`. -/
def checkResolutionDeviceTypeRule (profile : Profile) : Except String Bool := do
  let screen ← readThrough profile.screen "width"
  let width := screen.width
  let height := screen.height
  let ua ← userAgentLower profile
  let isMobile := isMobileUA ua
  if isMobile then
    if width.gt height then return false
    if width.gt (some 1080) then return false
  else
    if width.lt height then return false
    if width.lt (some 1024) then return false
  return true

/-- The `check` of rule `Hardware-DeviceType`. -/
def checkHardwareDeviceTypeRule (profile : Profile) : Except String Bool := do
  let nav ← readThrough profile.navigator "hardwareConcurrency"
  let cores := nav.hardwareConcurrency
  let memory := nav.deviceMemory
  let ua ← userAgentLower profile
  let isMobile := isMobileUA ua
  if isMobile then
    if cores.gt (some 8) then return false
    if memory.gt (some 8) then return false
  else
    if cores.lt (some 2) then return false
    if memory.lt (some 4) then return false
  return true

/-- The table `timezoneLanguages` of rule `Language-Timezone`. -/
def timezoneLanguages : List (String × List String) :=
  [ ("America/New_York", ["en"]),
    ("America/Chicago", ["en"]),
    ("America/Los_Angeles", ["en"]),
    ("America/Toronto", ["en", "fr"]),
    ("America/Mexico_City", ["es"]),
    ("America/Sao_Paulo", ["pt"]),
    ("America/Buenos_Aires", ["es"]),
    ("Europe/London", ["en"]),
    ("Europe/Paris", ["fr"]),
    ("Europe/Berlin", ["de"]),
    ("Europe/Madrid", ["es"]),
    ("Europe/Rome", ["it"]),
    ("Europe/Moscow", ["ru"]),
    ("Asia/Tokyo", ["ja"]),
    ("Asia/Shanghai", ["zh"]),
    ("Asia/Seoul", ["ko"]),
    ("Asia/Kolkata", ["hi", "en"]),
    ("Australia/Sydney", ["en"]) ]

/-- The property names that an object literal inherits from
`Object.prototype`: indexing the table with one of them yields a value that
is truthy and has no `includes` method. -/
def objectPrototypeKeys : List String :=
  [ "constructor", "__defineGetter__", "__defineSetter__", "hasOwnProperty",
    "__lookupGetter__", "__lookupSetter__", "isPrototypeOf",
    "propertyIsEnumerable", "toString", "valueOf", "__proto__",
    "toLocaleString" ]

/-- The `check` of rule `Language-Timezone`. -/
def checkLanguageTimezoneRule (profile : Profile) : Except String Bool := do
  let nav ← readThrough profile.navigator "language"
  let lang := splitHyphenFirst (← readThrough nav.language "split")
  let tz ← readThrough profile.timezone "name"
  match tz.name with
  | none => return true
  | some timezone =>
    match timezoneLanguages.lookup timezone with
    | some expectedLangs =>
      if !expectedLangs.contains lang then return false
      return true
    | none =>
      if objectPrototypeKeys.contains timezone then
        throw "expectedLangs.includes is not a function"
      return true

/-- The `check` of rule `Plugins-Platform`. -/
def checkPluginsPlatformRule (profile : Profile) : Except String Bool := do
  let nav ← readThrough profile.navigator "plugins"
  let plugins := nav.plugins
  let ua ← userAgentLower profile
  let isMobile := isMobileUA ua
  -- `plugins.length` is read by the first test when `isMobile`, by the second otherwise
  let pluginList ← readThrough plugins "length"
  if isMobile && decide (pluginList.length > 0) then return false
  if !isMobile && decide (pluginList.length = 0) then return false
  return true

/-- The `check` of rule `ColorDepth-Platform`. -/
def checkColorDepthPlatformRule (profile : Profile) : Except String Bool := do
  let screen ← readThrough profile.screen "colorDepth"
  let colorDepth := screen.colorDepth
  let platform ← platformLower profile
  if includes platform "mac" && colorDepth.strictNe 30 && colorDepth.strictNe 24 then
    return false
  if colorDepth.strictNe 24 && colorDepth.strictNe 30 && colorDepth.strictNe 32 then
    return false
  return true

/-- The table `platformFonts` of rule `Fonts-Platform`, in the order of
`Object.entries`. -/
def platformFonts : List (String × List String) :=
  [ ("win", ["Arial", "Calibri", "Segoe UI", "Times New Roman"]),
    ("mac", ["Helvetica", "Helvetica Neue", "San Francisco", "Lucida Grande"]),
    ("linux", ["DejaVu Sans", "Liberation Sans", "Ubuntu"]) ]

/-- The loop of rule `Fonts-Platform` over the entries of `platformFonts`. -/
def fontsLoop (fonts : Option (List String)) (platform : String) :
    List (String × List String) → Except String Bool
  | [] => .ok true
  | (plat, requiredFonts) :: rest =>
    if includes platform plat then
      match requiredFonts, fonts with
      | [], _ => .ok false
      | _ :: _, none => .error "Cannot read properties of undefined (reading includes)"
      | _ :: _, some available =>
        if requiredFonts.any (fun font => available.contains font) then
          fontsLoop fonts platform rest
        else .ok false
    else fontsLoop fonts platform rest

/-- The `check` of rule `Fonts-Platform`. -/
def checkFontsPlatformRule (profile : Profile) : Except String Bool := do
  let fontsFacet ← readThrough profile.fonts "available"
  let fonts := fontsFacet.available
  let platform ← platformLower profile
  fontsLoop fonts platform platformFonts

/-- The `check` of rule `Battery-DeviceType`. -/
def checkBatteryDeviceTypeRule (profile : Profile) : Except String Bool := do
  let battery := profile.battery
  let ua ← userAgentLower profile
  let isMobile := isMobileUA ua
  let isLaptop ←
    if includes ua "macbook" then pure true
    else if includes ua "windows" then do
      let nav ← readThrough profile.navigator "maxTouchPoints"
      pure (nav.maxTouchPoints.gt (some 0))
    else pure false
  if !isMobile && !isLaptop then
    let b ← readThrough battery "level"
    if b.level.lt (some 1) then return false
  return true

/-- Method `initializeRules`: the default rule set. -/
def initializeRules : List Rule :=
  [ { name := "Platform-UserAgent", check := checkPlatformUserAgentRule,
      severity := "critical", message := "Platform and UserAgent mismatch" },
    { name := "WebGL-Platform", check := checkWebGLPlatformRule,
      severity := "critical", message := "WebGL renderer incompatible with platform" },
    { name := "Touch-DeviceType", check := checkTouchDeviceTypeRule,
      severity := "high", message := "Touch support inconsistent with device type" },
    { name := "Resolution-DeviceType", check := checkResolutionDeviceTypeRule,
      severity := "medium", message := "Screen resolution unusual for device type" },
    { name := "Hardware-DeviceType", check := checkHardwareDeviceTypeRule,
      severity := "medium", message := "Hardware specs inconsistent with device type" },
    { name := "Language-Timezone", check := checkLanguageTimezoneRule,
      severity := "low", message := "Language unusual for timezone" },
    { name := "Plugins-Platform", check := checkPluginsPlatformRule,
      severity := "medium", message := "Plugin count inconsistent with platform" },
    { name := "ColorDepth-Platform", check := checkColorDepthPlatformRule,
      severity := "low", message := "Color depth unusual for platform" },
    { name := "Fonts-Platform", check := checkFontsPlatformRule,
      severity := "medium", message := "Font list missing platform-specific fonts" },
    { name := "Battery-DeviceType", check := checkBatteryDeviceTypeRule,
      severity := "low", message := "Battery level inconsistent with device type" } ]

deriving instance DecidableEq for Except

/-! ## Evaluation of a profile -/

/-- An entry of `results.issues`. -/
structure Issue where
  name : String
  severity : String
  message : String
  deriving DecidableEq

/-- An entry of `results.warnings`. -/
structure Warning where
  rule : String
  error : String
  deriving DecidableEq

/-- The object `results` of `checkProfile` before the summary is attached. -/
structure Results where
  passed : Nat
  failed : Nat
  score : Int
  issues : List Issue
  criticalIssues : Nat
  warnings : List Warning
  deriving DecidableEq

/-- The report returned by `checkProfile`: `results` with its `summary`. -/
structure Report extends Results where
  summary : String
  deriving DecidableEq

/-- The initial value of `results` in `checkProfile`. -/
def Results.initial : Results :=
  { passed := 0, failed := 0, score := 100, issues := [], criticalIssues := 0,
    warnings := [] }

/-- The `switch (rule.severity)` of `checkProfile`: deduct points, and count
critical failures.  A severity outside the four cases changes nothing. -/
def deduct (results : Results) (severity : String) : Results :=
  if severity = "critical" then
    { results with score := results.score - 30,
                   criticalIssues := results.criticalIssues + 1 }
  else if severity = "high" then { results with score := results.score - 20 }
  else if severity = "medium" then { results with score := results.score - 10 }
  else if severity = "low" then { results with score := results.score - 5 }
  else results

/-- The body of the loop of `checkProfile`: one rule, inside its
`try`/`catch`. -/
def checkRule (profile : Profile) (results : Results) (rule : Rule) : Results :=
  match rule.check profile with
  | .ok passed =>
    if passed then { results with passed := results.passed + 1 }
    else
      deduct
        { results with
            failed := results.failed + 1,
            issues := results.issues ++
              [{ name := rule.name, severity := rule.severity, message := rule.message }] }
        rule.severity
  | .error msg =>
    { results with warnings := results.warnings ++ [{ rule := rule.name, error := msg }] }

/-- Method `generateSummary`. -/
def generateSummary (results : Results) : String :=
  if results.criticalIssues > 0 then
    "Critical issues detected. Profile may be easily detected as fake."
  else if results.score ≥ 90 then
    "Excellent consistency. Profile appears genuine."
  else if results.score ≥ 70 then
    "Good consistency with minor issues."
  else if results.score ≥ 50 then
    "Moderate consistency. Some detection risk."
  else
    "Poor consistency. High risk of detection."

/-- An instance of class `ConsistencyChecker`: its field `rules`. -/
structure ConsistencyChecker where
  rules : List Rule

/-- The constructor: `this.rules = this.initializeRules()`. -/
def ConsistencyChecker.new : ConsistencyChecker := { rules := initializeRules }

/-- The `for` loop of `checkProfile` over `this.rules`. -/
def runRules (rules : List Rule) (profile : Profile) : Results :=
  rules.foldl (checkRule profile) Results.initial

/-- Method `checkProfile`. -/
def ConsistencyChecker.checkProfile (this : ConsistencyChecker) (profile : Profile) :
    Report :=
  let results := runRules this.rules profile
  let results := { results with score := max 0 results.score }
  { results with summary := generateSummary results }

/-! ## `checkProfile` as a computation on the caller's profile object

The definitions above read the profile as a value.  Here the profile is an
object on the heap that a predicate could assign to: a predicate is a
computation that returns a verdict or raises and leaves a profile object, and
`checkProfile` hands the object from one rule to the next. -/

/-- A computation on the heap: from the profile object the caller holds, a
result or a raised error, and the profile object afterwards. -/
def HeapM (α : Type) : Type := Profile → Except String α × Profile

/-- Sequencing of statements: an error raised by the first ends the
computation, with the heap the first one left. -/
instance : Monad HeapM where
  pure a := fun heap => (.ok a, heap)
  bind m f := fun heap =>
    match m heap with
    | (.ok a, heap1) => f a heap1
    | (.error e, heap1) => (.error e, heap1)

/-- Evaluation of an expression that reads properties of `profile`. -/
def HeapM.eval {α : Type} (e : Profile → Except String α) : HeapM α :=
  fun heap => (e heap, heap)

/-- Evaluation of an expression over local constants only. -/
def HeapM.ofExcept {α : Type} (e : Except String α) : HeapM α :=
  fun heap => (e, heap)

/-- An assignment into the object `profile`. -/
def HeapM.assign (f : Profile → Profile) : HeapM Unit :=
  fun heap => (.ok (), f heap)

/-- A rule whose predicate is a computation on the heap. -/
structure HeapRule where
  name : String
  check : HeapM Bool
  severity : String
  message : String

/-- The `check` of rule `Platform-UserAgent`, statement by statement. -/
def checkPlatformUserAgentRuleOnHeap : HeapM Bool := do
  let platform ← HeapM.eval platformLower
  let ua ← HeapM.eval userAgentLower
  if includes platform "win" && !includes ua "windows" then return false
  if includes platform "mac" && !includes ua "mac" then return false
  if includes platform "linux" && !includes ua "linux" then return false
  return true

/-- The `check` of rule `WebGL-Platform`, statement by statement. -/
def checkWebGLPlatformRuleOnHeap : HeapM Bool := do
  let platform ← HeapM.eval platformLower
  let webgl ← HeapM.eval (fun profile => readThrough profile.webgl "renderer")
  let renderer := toLowerCase (← HeapM.ofExcept (readThrough webgl.renderer "toLowerCase"))
  if includes platform "win" then
    if includes renderer "apple" then return false
    if !includes renderer "direct3d" && !includes renderer "d3d" then return false
  if includes platform "mac" then
    if includes renderer "direct3d" then return false
    if includes renderer "nvidia" || includes renderer "amd" then return false
    if !includes renderer "apple" && !includes renderer "intel" then return false
  if includes platform "linux" then
    if includes renderer "direct3d" then return false
    if includes renderer "apple" then return false
  return true

/-- The `check` of rule `Touch-DeviceType`, statement by statement. -/
def checkTouchDeviceTypeRuleOnHeap : HeapM Bool := do
  let nav ← HeapM.eval (fun profile => readThrough profile.navigator "maxTouchPoints")
  let maxTouchPoints := nav.maxTouchPoints
  let ua ← HeapM.eval userAgentLower
  let isMobile := isMobileUA ua
  if isMobile && maxTouchPoints.strictEq 0 then return false
  if !isMobile && maxTouchPoints.gt (some 10) then return false
  return true

/-- The `check` of rule `Resolution-DeviceType`, statement by statement. -/
def checkResolutionDeviceTypeRuleOnHeap : HeapM Bool := do
  let screen ← HeapM.eval (fun profile => readThrough profile.screen "width")
  let width := screen.width
  let height := screen.height
  let ua ← HeapM.eval userAgentLower
  let isMobile := isMobileUA ua
  if isMobile then
    if width.gt height then return false
    if width.gt (some 1080) then return false
  else
    if width.lt height then return false
    if width.lt (some 1024) then return false
  return true

/-- The `check` of rule `Hardware-DeviceType`, statement by statement. -/
def checkHardwareDeviceTypeRuleOnHeap : HeapM Bool := do
  let nav ← HeapM.eval (fun profile => readThrough profile.navigator "hardwareConcurrency")
  let cores := nav.hardwareConcurrency
  let memory := nav.deviceMemory
  let ua ← HeapM.eval userAgentLower
  let isMobile := isMobileUA ua
  if isMobile then
    if cores.gt (some 8) then return false
    if memory.gt (some 8) then return false
  else
    if cores.lt (some 2) then return false
    if memory.lt (some 4) then return false
  return true

/-- The `check` of rule `Language-Timezone`, statement by statement. -/
def checkLanguageTimezoneRuleOnHeap : HeapM Bool := do
  let nav ← HeapM.eval (fun profile => readThrough profile.navigator "language")
  let lang := splitHyphenFirst (← HeapM.ofExcept (readThrough nav.language "split"))
  let tz ← HeapM.eval (fun profile => readThrough profile.timezone "name")
  match tz.name with
  | none => return true
  | some timezone =>
    match timezoneLanguages.lookup timezone with
    | some expectedLangs =>
      if !expectedLangs.contains lang then return false
      return true
    | none =>
      if objectPrototypeKeys.contains timezone then
        HeapM.ofExcept (.error "expectedLangs.includes is not a function")
      return true

/-- The `check` of rule `Plugins-Platform`, statement by statement. -/
def checkPluginsPlatformRuleOnHeap : HeapM Bool := do
  let nav ← HeapM.eval (fun profile => readThrough profile.navigator "plugins")
  let plugins := nav.plugins
  let ua ← HeapM.eval userAgentLower
  let isMobile := isMobileUA ua
  let pluginList ← HeapM.ofExcept (readThrough plugins "length")
  if isMobile && decide (pluginList.length > 0) then return false
  if !isMobile && decide (pluginList.length = 0) then return false
  return true

/-- The `check` of rule `ColorDepth-Platform`, statement by statement. -/
def checkColorDepthPlatformRuleOnHeap : HeapM Bool := do
  let screen ← HeapM.eval (fun profile => readThrough profile.screen "colorDepth")
  let colorDepth := screen.colorDepth
  let platform ← HeapM.eval platformLower
  if includes platform "mac" && colorDepth.strictNe 30 && colorDepth.strictNe 24 then
    return false
  if colorDepth.strictNe 24 && colorDepth.strictNe 30 && colorDepth.strictNe 32 then
    return false
  return true

/-- The `check` of rule `Fonts-Platform`, statement by statement; its loop
works on the constants `fonts` and `platform`. -/
def checkFontsPlatformRuleOnHeap : HeapM Bool := do
  let fontsFacet ← HeapM.eval (fun profile => readThrough profile.fonts "available")
  let fonts := fontsFacet.available
  let platform ← HeapM.eval platformLower
  HeapM.ofExcept (fontsLoop fonts platform platformFonts)

/-- The `check` of rule `Battery-DeviceType`, statement by statement. -/
def checkBatteryDeviceTypeRuleOnHeap : HeapM Bool := do
  let battery ← HeapM.eval (fun profile => .ok profile.battery)
  let ua ← HeapM.eval userAgentLower
  let isMobile := isMobileUA ua
  let isLaptop ←
    if includes ua "macbook" then pure true
    else if includes ua "windows" then do
      let nav ← HeapM.eval (fun profile => readThrough profile.navigator "maxTouchPoints")
      pure (nav.maxTouchPoints.gt (some 0))
    else pure false
  if !isMobile && !isLaptop then
    let b ← HeapM.ofExcept (readThrough battery "level")
    if b.level.lt (some 1) then return false
  return true

/-- Method `initializeRules`, with the predicates as computations on the
heap. -/
def initializeRulesOnHeap : List HeapRule :=
  [ { name := "Platform-UserAgent", check := checkPlatformUserAgentRuleOnHeap,
      severity := "critical", message := "Platform and UserAgent mismatch" },
    { name := "WebGL-Platform", check := checkWebGLPlatformRuleOnHeap,
      severity := "critical", message := "WebGL renderer incompatible with platform" },
    { name := "Touch-DeviceType", check := checkTouchDeviceTypeRuleOnHeap,
      severity := "high", message := "Touch support inconsistent with device type" },
    { name := "Resolution-DeviceType", check := checkResolutionDeviceTypeRuleOnHeap,
      severity := "medium", message := "Screen resolution unusual for device type" },
    { name := "Hardware-DeviceType", check := checkHardwareDeviceTypeRuleOnHeap,
      severity := "medium", message := "Hardware specs inconsistent with device type" },
    { name := "Language-Timezone", check := checkLanguageTimezoneRuleOnHeap,
      severity := "low", message := "Language unusual for timezone" },
    { name := "Plugins-Platform", check := checkPluginsPlatformRuleOnHeap,
      severity := "medium", message := "Plugin count inconsistent with platform" },
    { name := "ColorDepth-Platform", check := checkColorDepthPlatformRuleOnHeap,
      severity := "low", message := "Color depth unusual for platform" },
    { name := "Fonts-Platform", check := checkFontsPlatformRuleOnHeap,
      severity := "medium", message := "Font list missing platform-specific fonts" },
    { name := "Battery-DeviceType", check := checkBatteryDeviceTypeRuleOnHeap,
      severity := "low", message := "Battery level inconsistent with device type" } ]

/-- The body of the loop of `checkProfile` on the heap: the rule's predicate
is called on the profile object as the rules before it left it, and leaves it
for the rules after it. -/
def checkRuleOnHeap (state : Results × Profile) (rule : HeapRule) : Results × Profile :=
  match rule.check state.2 with
  | (.ok passed, heap) =>
    if passed then ({ state.1 with passed := state.1.passed + 1 }, heap)
    else
      (deduct
        { state.1 with
            failed := state.1.failed + 1,
            issues := state.1.issues ++
              [{ name := rule.name, severity := rule.severity, message := rule.message }] }
        rule.severity, heap)
  | (.error msg, heap) =>
    ({ state.1 with warnings := state.1.warnings ++ [{ rule := rule.name, error := msg }] },
      heap)

/-- Method `checkProfile` on the heap, for a checker whose `rules` are the
given ones: the report it returns and the profile object it leaves to the
caller. -/
def checkProfileOnHeap (rules : List HeapRule) (profile : Profile) : Report × Profile :=
  let state := rules.foldl checkRuleOnHeap (Results.initial, profile)
  let results := { state.1 with score := max 0 state.1.score }
  ({ results with summary := generateSummary results }, state.2)

/-- A rule that is not in the default set: its predicate deletes the battery
facet of the profile it is given and passes. -/
def forgetBatteryRule : HeapRule :=
  { name := "Forget-Battery",
    check := do
      HeapM.assign (fun profile => { profile with battery := none })
      return true,
    severity := "low", message := "never fails" }

/-- At `heap`, the computation `m` returns what `e` returns and leaves the
heap as it found it. -/
def HeapM.AgreesAt {α : Type} (heap : Profile) (m : HeapM α) (e : Except String α) : Prop :=
  m heap = (e, heap)

/-- A predicate on the heap that, on every profile object, does what the
value-level predicate `check` does and leaves the object as it found it. -/
def HeapM.Reads (m : HeapM Bool) (check : Profile → Except String Bool) : Prop :=
  ∀ heap, HeapM.AgreesAt heap m (check heap)

/-- A rule on the heap that matches a value-level rule: the same name,
severity and message, and a predicate that only reads. -/
def HeapRule.Reads (rule : HeapRule) (r : Rule) : Prop :=
  rule.name = r.name ∧ rule.severity = r.severity ∧ rule.message = r.message ∧
    HeapM.Reads rule.check r.check

/-! ## The loop of `checkProfile`, rule by rule

The outcome of a rule on a profile is one of: it passes, it fails, it raises.
The lemmas below describe each field of `results` after the loop by a count
or a sum over the rule list. -/

/-- The rule evaluates to true on the profile. -/
def passes (profile : Profile) (rule : Rule) : Bool :=
  match rule.check profile with
  | .ok true => true
  | _ => false

/-- The rule evaluates to false on the profile. -/
def fails (profile : Profile) (rule : Rule) : Bool :=
  match rule.check profile with
  | .ok false => true
  | _ => false

/-- The fixed weight of a severity: critical 30, high 20, medium 10, low 5,
and nothing for any other string. -/
def weight (severity : String) : Int :=
  if severity = "critical" then 30
  else if severity = "high" then 20
  else if severity = "medium" then 10
  else if severity = "low" then 5
  else 0

/-- The sum of the weights of the rules that evaluate to false. -/
def deductions (rules : List Rule) (profile : Profile) : Int :=
  ((rules.filter (fails profile)).map (fun r => weight r.severity)).sum

/-- The issue recorded for a failed rule. -/
def issueOf (rule : Rule) : Issue :=
  { name := rule.name, severity := rule.severity, message := rule.message }

/-- The warning recorded for a rule, if it raises. -/
def warningOf (profile : Profile) (rule : Rule) : Option Warning :=
  match rule.check profile with
  | .error msg => some { rule := rule.name, error := msg }
  | .ok _ => none

/-! ## Sample profiles -/

/-- A Windows desktop profile that satisfies every default rule. -/
def windowsDesktop : Profile :=
  { navigator := some
      { platform := some "Win32",
        userAgent := some "Mozilla/5.0 (Windows NT 10.0; Win64; x64) AppleWebKit/537.36 Chrome/120.0.0.0 Safari/537.36",
        language := some "en-US",
        hardwareConcurrency := some 8,
        deviceMemory := some 8,
        maxTouchPoints := some 0,
        plugins := some ["PDF Viewer", "Chrome PDF Viewer"] },
    screen := some { width := some 1920, height := some 1080, colorDepth := some 24 },
    webgl := some
      { vendor := some "Google Inc. (NVIDIA)",
        renderer := some "ANGLE (NVIDIA, NVIDIA GeForce GTX 1060 Direct3D11 vs_5_0 ps_5_0, D3D11)" },
    timezone := some { name := some "America/New_York" },
    fonts := some { available := some ["Arial", "Calibri", "Verdana"] },
    battery := some { level := some 1 } }

/-- A desktop profile on which every default rule evaluates to false. -/
def inconsistentProfile : Profile :=
  { navigator := some
      { platform := some "Win32",
        userAgent := some "Mozilla/5.0 (Macintosh; Intel Mac OS X 10_15_7) AppleWebKit/605.1.15 Safari/605.1.15",
        language := some "en-US",
        hardwareConcurrency := some 1,
        deviceMemory := some 2,
        maxTouchPoints := some 20,
        plugins := some [] },
    screen := some { width := some 800, height := some 1200, colorDepth := some 16 },
    webgl := some { vendor := some "Apple Inc.", renderer := some "Apple M1" },
    timezone := some { name := some "Europe/Paris" },
    fonts := some { available := some ["Helvetica"] },
    battery := some { level := some 0 } }

/-- The profile `windowsDesktop` with a Macintosh user agent: only rule
`Platform-UserAgent` fails. -/
def macAgentOnWindows : Profile :=
  { windowsDesktop with
    navigator := some
      { platform := some "Win32",
        userAgent := some "Mozilla/5.0 (Macintosh; Intel Mac OS X 10_15_7) AppleWebKit/605.1.15 Safari/605.1.15",
        language := some "en-US",
        hardwareConcurrency := some 8,
        deviceMemory := some 8,
        maxTouchPoints := some 0,
        plugins := some ["PDF Viewer", "Chrome PDF Viewer"] } }

/-- The profile `windowsDesktop` without its webgl facet: rule
`WebGL-Platform` raises. -/
def noWebGL : Profile := { windowsDesktop with webgl := none }

/-- The profile `windowsDesktop` with five touch points (a touch-screen
desktop). -/
def touchDesktop : Profile :=
  { windowsDesktop with
    navigator := some
      { platform := some "Win32",
        userAgent := some "Mozilla/5.0 (Windows NT 10.0; Win64; x64) AppleWebKit/537.36 Chrome/120.0.0.0 Safari/537.36",
        language := some "en-US",
        hardwareConcurrency := some 8,
        deviceMemory := some 8,
        maxTouchPoints := some 5,
        plugins := some ["PDF Viewer", "Chrome PDF Viewer"] } }

/-! ## The standalone pairwise predicates -/

/-- Method `checkPlatformUA`. -/
def checkPlatformUA (platform userAgent : String) : Bool :=
  let pl := toLowerCase platform
  let ua := toLowerCase userAgent
  if includes pl "win" && !includes ua "windows" then false
  else if includes pl "mac" && !includes ua "mac" then false
  else if includes pl "linux" && !includes ua "linux" && !includes ua "android" then false
  else true

/-- Method `checkWebGLPlatform`. -/
def checkWebGLPlatform (webglRenderer platform : String) : Bool :=
  let renderer := toLowerCase webglRenderer
  let plat := toLowerCase platform
  if includes plat "win" && includes renderer "apple" then false
  else if includes plat "mac" && includes renderer "direct3d" then false
  else true

/-- The table `tzToLang` of `checkTimezoneLanguage`, in the order of
`Object.entries`. -/
def tzToLang : List (String × List String) :=
  [ ("America/", ["en", "es", "pt", "fr"]),
    ("Europe/", ["en", "de", "fr", "es", "it", "nl", "pl", "pt", "ru"]),
    ("Asia/", ["zh", "ja", "ko", "hi", "ar", "th", "vi", "id"]),
    ("Australia/", ["en"]) ]

/-- The loop of `checkTimezoneLanguage` over the entries of `tzToLang`: the
first entry whose prefix starts the timezone decides. -/
def tzLoop (timezone lang : String) : List (String × List String) → Bool
  | [] => true
  | (pre, langs) :: rest =>
    if startsWith timezone pre then langs.contains lang
    else tzLoop timezone lang rest

/-- Method `checkTimezoneLanguage`. -/
def checkTimezoneLanguage (timezone language : String) : Bool :=
  let lang := splitHyphenFirst language
  tzLoop timezone lang tzToLang

/-- Method `checkValueConsistency`. -/
def checkValueConsistency (value1 value2 type : String) : Bool :=
  if type = "platform-ua" then checkPlatformUA value1 value2
  else if type = "webgl-platform" then checkWebGLPlatform value1 value2
  else if type = "timezone-language" then checkTimezoneLanguage value1 value2
  else true

/-! ## The service worker: `background/service-worker.js`

The module-level `sessionData`, the session store `chrome.storage.session`
and the choices of the environment are explicit.  The handlers are run one
after the other, each to completion.  A value that may be `null` or
`undefined` is an `Option` (`none` stands for both); times are natural
numbers of milliseconds. -/

/-- Method `String.prototype.padStart` with a one-character filler. -/
def padStart (s : String) (targetLength : Nat) (padChar : Char) : String :=
  ⟨List.replicate (targetLength - s.data.length) padChar ++ s.data⟩

/-- The expression `byte.toString(16).padStart(2, '0')`. -/
def byteToHex (byte : Fin 256) : String :=
  padStart ⟨Nat.toDigits 16 byte.val⟩ 2 '0'

/-- Method `Array.prototype.join` with the empty separator. -/
def joinStrings (parts : List String) : String :=
  ⟨(parts.map String.data).flatten⟩

/-- Function `generateSessionSeed`, given the 32 bytes that
`crypto.getRandomValues` writes into the array. -/
def generateSessionSeed (array : Fin 32 → Fin 256) : String :=
  joinStrings ((List.ofFn array).map byteToHex)

/-- The truthiness of a value that is a string, `null` or `undefined`: only a
non-empty string is truthy. -/
def truthy (v : Option String) : Bool :=
  match v with
  | some s => s != ""
  | none => false

/-- The module-level object `sessionData`; `profileTimestamp` is the property
that `getSessionInfo` adds. -/
structure SessionData where
  seed : Option String
  profile : Option Profile
  initialized : Bool
  sessionStartTime : Option Nat
  profileTimestamp : Option Nat
  deriving DecidableEq

/-- The initial value of `sessionData`. -/
def SessionData.initial : SessionData :=
  { seed := none, profile := none, initialized := false, sessionStartTime := none,
    profileTimestamp := none }

/-- The contents of `chrome.storage.session` under the keys the service
worker uses. -/
structure StoredData where
  sessionSeed : Option String
  sessionStartTime : Option Nat
  profile : Option Profile
  timestamp : Option Nat
  deriving DecidableEq

/-- The empty session store. -/
def StoredData.empty : StoredData :=
  { sessionSeed := none, sessionStartTime := none, profile := none, timestamp := none }

/-- The choices of the environment: whether the `k`-th storage operation
rejects, the bytes delivered by the `k`-th call of `crypto.getRandomValues`,
and the value of the `k`-th call of `Date.now`. -/
structure Env where
  storageFails : Nat → Bool
  randomBytes : Nat → Fin 32 → Fin 256
  now : Nat → Nat

/-- The state the service worker acts on, with counters of the calls made to
the environment and the log of the delays awaited through `setTimeout`. -/
structure World where
  sessionData : SessionData
  storage : StoredData
  storageOps : Nat
  seedsGenerated : Nat
  clockReads : Nat
  sleeps : List Nat
  deriving DecidableEq

/-- A `chrome.storage.session.get` call: it rejects or yields the contents. -/
def storageGet (env : Env) (w : World) : Except String StoredData × World :=
  let w1 := { w with storageOps := w.storageOps + 1 }
  if env.storageFails w.storageOps then (.error "storage unavailable", w1)
  else (.ok w.storage, w1)

/-- The call
`chrome.storage.session.set({ sessionSeed, sessionStartTime, profile: null })`:
it rejects and leaves the store alone, or writes the three keys. -/
def storageSetSession (env : Env) (seed : String) (startTime : Nat) (w : World) :
    Except String Unit × World :=
  let w1 := { w with storageOps := w.storageOps + 1 }
  if env.storageFails w.storageOps then (.error "storage unavailable", w1)
  else
    (.ok (),
      { w1 with
        storage :=
          { w.storage with
            sessionSeed := some seed, sessionStartTime := some startTime, profile := none } })

/-- A call of `generateSessionSeed()` in the world. -/
def nextSeed (env : Env) (w : World) : String × World :=
  (generateSessionSeed (env.randomBytes w.seedsGenerated),
    { w with seedsGenerated := w.seedsGenerated + 1 })

/-- A call of `Date.now()` in the world. -/
def dateNow (env : Env) (w : World) : Nat × World :=
  (env.now w.clockReads, { w with clockReads := w.clockReads + 1 })

/-- The wait `await new Promise(resolve => setTimeout(resolve, ms))`. -/
def sleep (ms : Nat) (w : World) : World :=
  { w with sleeps := w.sleeps ++ [ms] }

/-- Function `clearTargetSiteData`: it removes cookies and browsing data of
the target sites and catches every error itself; it touches neither
`sessionData` nor the session store. -/
def clearTargetSiteData (w : World) : World := w

/-- The `try` block of one iteration of `initializeSession`: the new world
after the session is stored and adopted, or the world at the point where a
storage call rejected. -/
def initializeAttempt (env : Env) (w : World) : Except World World :=
  let (seed, w) := nextSeed env w
  let (startTime, w) := dateNow env w
  match storageGet env w with
  | (.error _, w) => .error w
  | (.ok _, w) =>
    match storageSetSession env seed startTime w with
    | (.error _, w) => .error w
    | (.ok _, w) =>
      let w :=
        { w with
          sessionData :=
            { w.sessionData with
              seed := some seed, sessionStartTime := some startTime, initialized := true,
              profile := none } }
      .ok (clearTargetSiteData w)

/-- The `catch` block of `initializeSession` in iteration `i`. -/
def initializeCatch (env : Env) (retries i : Nat) (w : World) : World :=
  if i = retries - 1 then
    let (seed, w) := nextSeed env w
    let (startTime, w) := dateNow env w
    { w with
      sessionData :=
        { w.sessionData with
          seed := some seed, sessionStartTime := some startTime, initialized := true } }
  else sleep (500 * (i + 1)) w

/-- The loop `for (let i = 0; i < retries; i++)` of `initializeSession` with
`remaining` iterations to go, so that `i = retries - remaining`. -/
def initializeSessionLoop (env : Env) (retries : Nat) : Nat → World → World
  | 0, w => w
  | remaining + 1, w =>
    let i := retries - (remaining + 1)
    match initializeAttempt env w with
    | .ok w => w
    | .error w => initializeSessionLoop env retries remaining (initializeCatch env retries i w)

/-- Function `initializeSession(retries)`; the default of `retries` is 3. -/
def initializeSession (env : Env) (retries : Nat) (w : World) : World :=
  initializeSessionLoop env retries retries w

/-- The `try` block of one iteration of `restoreSession`: the world in which
the function returns, or the world at the point where a read rejected. -/
def restoreAttempt (env : Env) (w : World) : Except World World :=
  match storageGet env w with
  | (.error _, w) => .error w
  | (.ok _, w) =>
    match storageGet env w with
    | (.error _, w) => .error w
    | (.ok stored, w) =>
      if truthy stored.sessionSeed then
        .ok
          { w with
            sessionData :=
              { w.sessionData with
                seed := stored.sessionSeed, sessionStartTime := stored.sessionStartTime,
                profile := stored.profile, initialized := true } }
      else .ok (initializeSession env 3 w)

/-- The `catch` block of `restoreSession` in iteration `i`. -/
def restoreCatch (env : Env) (retries i : Nat) (w : World) : World :=
  if i < retries - 1 then sleep (500 * (i + 1)) w
  else initializeSession env 3 w

/-- The loop `for (let i = 0; i < retries; i++)` of `restoreSession` with
`remaining` iterations to go, so that `i = retries - remaining`. -/
def restoreSessionLoop (env : Env) (retries : Nat) : Nat → World → World
  | 0, w => w
  | remaining + 1, w =>
    let i := retries - (remaining + 1)
    match restoreAttempt env w with
    | .ok w => w
    | .error w => restoreSessionLoop env retries remaining (restoreCatch env retries i w)

/-- Function `restoreSession(retries)`; the default of `retries` is 3. -/
def restoreSession (env : Env) (retries : Nat) (w : World) : World :=
  restoreSessionLoop env retries retries w

/-- The response `{ seed }` of `handleGetSessionSeed`. -/
structure SeedResponse where
  seed : Option String
  deriving DecidableEq

/-- The loop `while (retries > 0)` of `handleGetSessionSeed`: the seed read
from the store, if a read delivers a truthy one. -/
def seedReadLoop (env : Env) : Nat → World → Option String × World
  | 0, w => (none, w)
  | retries + 1, w =>
    match storageGet env w with
    | (.ok stored, w) =>
      if truthy stored.sessionSeed then
        (stored.sessionSeed,
          { w with sessionData := { w.sessionData with seed := stored.sessionSeed } })
      else seedReadLoop env retries (if retries > 0 then sleep 500 w else w)
    | (.error _, w) => seedReadLoop env retries (if retries > 0 then sleep 500 w else w)

/-- Function `handleGetSessionSeed`.  In its `try` block only the storage read
can raise, and that read has its own `catch`; `initializeSession` handles its
errors itself.  So the outer `catch` is not reached. -/
def handleGetSessionSeed (env : Env) (w : World) : SeedResponse × World :=
  let w :=
    if !w.sessionData.initialized || !truthy w.sessionData.seed then
      initializeSession env 3 w
    else w
  if truthy w.sessionData.seed then ({ seed := w.sessionData.seed }, w)
  else
    match seedReadLoop env 3 w with
    | (some seed, w) => ({ seed := some seed }, w)
    | (none, w) =>
      let w := initializeSession env 3 w
      ({ seed := w.sessionData.seed }, w)

/-- Every one of `n` attempts of `initializeSession`, the first of which
starts with storage operation `k`, fails: its `get` rejects, or its `get`
succeeds and its `set` rejects. -/
def everyPersistFails (fails : Nat → Bool) : Nat → Nat → Bool
  | _, 0 => true
  | k, n + 1 =>
    if fails k then everyPersistFails fails (k + 1) n
    else fails (k + 1) && everyPersistFails fails (k + 2) n

/-- One of `n` attempts of `restoreSession`, the first of which starts with
storage operation `k`, gets both its reads through. -/
def readSucceedsWithin (fails : Nat → Bool) : Nat → Nat → Bool
  | _, 0 => false
  | k, n + 1 =>
    if fails k then readSucceedsWithin fails (k + 1) n
    else if fails (k + 1) then readSucceedsWithin fails (k + 2) n
    else true

/-- The profile `windowsDesktop` with the timezone name `toString`, a property
name inherited from `Object.prototype`. -/
def inheritedTimezone : Profile :=
  { windowsDesktop with timezone := some { name := some "toString" } }

/-- The renderer is implausible for the platform, in the words of the
specification; both strings are lower-cased first. -/
def implausibleRenderer (platform renderer : String) : Bool :=
  let pl := toLowerCase platform
  let r := toLowerCase renderer
  (includes pl "win" &&
    (includes r "apple" || (!includes r "direct3d" && !includes r "d3d"))) ||
  (includes pl "mac" &&
    (includes r "direct3d" || includes r "nvidia" || includes r "amd" ||
      (!includes r "apple" && !includes r "intel"))) ||
  (includes pl "linux" && (includes r "direct3d" || includes r "apple"))

/-- A profile that holds the given platform and user agent. -/
def profileOfPlatformUA (platform userAgent : String) : Profile :=
  { windowsDesktop with
    navigator := some
      { platform := some platform, userAgent := some userAgent, language := some "en-US",
        hardwareConcurrency := some 8, deviceMemory := some 8, maxTouchPoints := some 0,
        plugins := some ["PDF Viewer"] } }

/-- A profile that holds the given platform and renderer. -/
def profileOfRendererPlatform (renderer platform : String) : Profile :=
  { windowsDesktop with
    navigator := some
      { platform := some platform, userAgent := some "Mozilla/5.0", language := some "en-US",
        hardwareConcurrency := some 8, deviceMemory := some 8, maxTouchPoints := some 0,
        plugins := some ["PDF Viewer"] },
    webgl := some { vendor := none, renderer := some renderer } }

/-- A profile that holds the given timezone name and language. -/
def profileOfTimezoneLanguage (timezone language : String) : Profile :=
  { windowsDesktop with
    navigator := some
      { platform := some "Win32", userAgent := some "Mozilla/5.0", language := some language,
        hardwareConcurrency := some 8, deviceMemory := some 8, maxTouchPoints := some 0,
        plugins := some ["PDF Viewer"] },
    timezone := some { name := some timezone } }

/-- An environment in which every storage operation rejects; the random
bytes are all zero and the clock starts at 1000. -/
def failingEnv : Env :=
  { storageFails := fun _ => true, randomBytes := fun _ _ => 0, now := fun k => 1000 + k }

/-- An environment in which only the first storage operation rejects. -/
def flakyEnv : Env :=
  { storageFails := fun k => decide (k = 0), randomBytes := fun _ _ => 0,
    now := fun k => 1000 + k }

/-- The world at the start of the service worker, with an empty store. -/
def World.initial : World :=
  { sessionData := SessionData.initial, storage := StoredData.empty, storageOps := 0,
    seedsGenerated := 0, clockReads := 0, sleeps := [] }

/-- A world after a restart: nothing in memory, a session with seed `abc` and
no profile in the store. -/
def storedWorld : World :=
  { World.initial with
    storage :=
      { sessionSeed := some "abc", sessionStartTime := some 500, profile := none,
        timestamp := none } }

/-- A world with a running session that holds a profile. -/
def staleWorld : World :=
  { World.initial with
    sessionData :=
      { seed := some "abc", profile := some windowsDesktop, initialized := true,
        sessionStartTime := some 500, profileTimestamp := some 600 },
    storage :=
      { sessionSeed := some "abc", sessionStartTime := some 500,
        profile := some windowsDesktop, timestamp := some 600 } }

/-! ## The service worker: the remaining handlers -/

/-- The truthiness of a value that is a number or `undefined`: only a
non-zero number is truthy. -/
def truthyNum (v : Option Nat) : Bool :=
  match v with
  | some n => n != 0
  | none => false

/-- The JavaScript comparison `a > b` of two values that are numbers or
`undefined`: false when either is `undefined`. -/
def gtTime (a b : Option Nat) : Bool :=
  match a, b with
  | some x, some y => decide (x > y)
  | _, _ => false

/-- The call `chrome.storage.session.clear()`: it rejects and leaves the store
alone, or empties it. -/
def storageClear (env : Env) (w : World) : Except String Unit × World :=
  let w1 := { w with storageOps := w.storageOps + 1 }
  if env.storageFails w.storageOps then (.error "storage unavailable", w1)
  else (.ok (), { w1 with storage := StoredData.empty })

/-- A tab as delivered by `chrome.tabs.query`. -/
structure Tab where
  id : Option Nat
  url : Option String
  deriving DecidableEq

/-- The response of `handleRegenerateIdentity`: `{ success, message }` or
`{ success, error }`. -/
structure RegenerateResponse where
  success : Bool
  message : Option String
  error : Option String
  deriving DecidableEq

/-- The test `tab.url && !tab.url.startsWith('chrome://')`. -/
def reloadable (tab : Tab) : Bool :=
  match tab.url with
  | some url => url != "" && !startsWith url "chrome://"
  | none => false

/-- Function `handleRegenerateIdentity`, given the outcome of
`chrome.tabs.query({})`.  The third component lists the ids passed to
`chrome.tabs.reload`, whose promise the function does not await. -/
def handleRegenerateIdentity (env : Env) (tabsQuery : Except String (List Tab)) (w : World) :
    RegenerateResponse × World × List (Option Nat) :=
  match storageClear env w with
  | (.error msg, w) => ({ success := false, message := none, error := some msg }, w, [])
  | (.ok _, w) =>
    let w := initializeSession env 3 w
    match tabsQuery with
    | .error msg => ({ success := false, message := none, error := some msg }, w, [])
    | .ok tabs =>
      ({ success := true, message := some "Identity regenerated successfully", error := none },
        w, (tabs.filter reloadable).map (fun tab => tab.id))

/-- The object returned by `getSessionInfo`. -/
structure SessionInfo where
  seed : Option String
  profile : Option Profile
  sessionStartTime : Nat
  timestamp : Nat
  deriving DecidableEq

/-- The loop `while (retries > 0)` of `getSessionInfo`: the value of `stored`
after it, `none` for `null`. -/
def infoReadLoop (env : Env) : Nat → World → Option StoredData × World
  | 0, w => (none, w)
  | retries + 1, w =>
    match storageGet env w with
    | (.ok stored, w) => (some stored, w)
    | (.error _, w) => infoReadLoop env retries (if retries > 0 then sleep 500 w else w)

/-- The statement of `getSessionInfo` that updates the local data:
`if (stored && stored.profile && (!sessionData.profile ||
stored.timestamp > sessionData.profileTimestamp)) { ... }`. -/
def updateProfileCache (stored : Option StoredData) (sd : SessionData) : SessionData :=
  match stored with
  | none => sd
  | some st =>
    match st.profile with
    | none => sd
    | some p =>
      if sd.profile.isNone || gtTime st.timestamp sd.profileTimestamp then
        { sd with profile := some p, profileTimestamp := st.timestamp }
      else sd

/-- The object literal `result` of `getSessionInfo` and the `console.log` that
follows it, which reads the clock when `result.timestamp` is truthy. -/
def buildSessionInfo (env : Env) (stored : Option StoredData) (w : World) :
    SessionInfo × World :=
  let st := stored.getD StoredData.empty
  let seed := if truthy st.sessionSeed then st.sessionSeed else w.sessionData.seed
  let profile :=
    match st.profile with
    | some p => some p
    | none => w.sessionData.profile
  let (sessionStartTime, w) :=
    if truthyNum st.sessionStartTime then (st.sessionStartTime.getD 0, w)
    else if truthyNum w.sessionData.sessionStartTime then
      (w.sessionData.sessionStartTime.getD 0, w)
    else dateNow env w
  let (timestamp, w) :=
    if truthyNum st.timestamp then (st.timestamp.getD 0, w) else dateNow env w
  let w := if timestamp != 0 then (dateNow env w).2 else w
  ({ seed := seed, profile := profile, sessionStartTime := sessionStartTime,
     timestamp := timestamp }, w)

/-- Function `getSessionInfo`.  In its `try` block only the storage read can
raise, and that read has its own `catch`; `restoreSession` handles its errors
itself.  So the outer `catch` is not reached. -/
def getSessionInfo (env : Env) (w : World) : SessionInfo × World :=
  let w := if !w.sessionData.initialized then restoreSession env 3 w else w
  let (stored, w) := infoReadLoop env 3 w
  let w := { w with sessionData := updateProfileCache stored w.sessionData }
  buildSessionInfo env stored w

/-- The fields of the JSON document of the network lookup that
`checkVPNStatus` reads. -/
structure IpData where
  ip : Option String
  country_name : Option String
  country : Option String
  city : Option String
  region : Option String
  timezone : Option String
  org : Option String
  asn : Option String
  latitude : Num
  longitude : Num
  deriving DecidableEq

/-- The outcome of `fetch` and `response.json()`: the request rejects, the
status is not ok, the body is not JSON, or a document arrives. -/
inductive FetchOutcome where
  | rejected (message : String)
  | notOk
  | badJson (message : String)
  | json (data : IpData)
  deriving DecidableEq

/-- The object returned by `checkVPNStatus` on success. -/
structure VPNInfo where
  ip : Option String
  country : Option String
  countryCode : Option String
  city : Option String
  region : Option String
  timezone : Option String
  org : Option String
  isVPN : Bool
  asn : Option String
  latitude : Num
  longitude : Num
  deriving DecidableEq

/-- The response of `checkVPNStatus`: the information or `{ error }`. -/
inductive VPNResponse where
  | info (i : VPNInfo)
  | error (message : String)
  deriving DecidableEq

/-- The array `vpnIndicators`: each entry is
`data.org?.toLowerCase().includes(keyword)`, `none` for `undefined`. -/
def vpnIndicators (data : IpData) : List (Option Bool) :=
  [ data.org.map (fun org => includes (toLowerCase org) "vpn"),
    data.org.map (fun org => includes (toLowerCase org) "proxy"),
    data.org.map (fun org => includes (toLowerCase org) "hosting"),
    data.org.map (fun org => includes (toLowerCase org) "cloud"),
    data.org.map (fun org => includes (toLowerCase org) "datacenter") ]

/-- Function `checkVPNStatus`, given the outcome of the lookup. -/
def checkVPNStatus (outcome : FetchOutcome) : VPNResponse :=
  match outcome with
  | .json data =>
    let isVPN := (vpnIndicators data).any (fun indicator => indicator == some true)
    .info
      { ip := data.ip, country := data.country_name, countryCode := data.country,
        city := data.city, region := data.region, timezone := data.timezone,
        org := data.org, isVPN := isVPN, asn := data.asn, latitude := data.latitude,
        longitude := data.longitude }
  | _ => .error "Failed to check VPN status"

/-- A response sent by the message listener. -/
inductive Response where
  | seed (r : SeedResponse)
  | regenerate (r : RegenerateResponse)
  | sessionInfo (r : SessionInfo)
  | vpn (r : VPNResponse)
  | error (message : String)
  deriving DecidableEq

/-- The four functions the message listener calls; each returns its response
or raises with a message, and leaves a world. -/
structure Handlers where
  handleGetSessionSeed : World → Except String SeedResponse × World
  handleRegenerateIdentity : World → Except String RegenerateResponse × World
  getSessionInfo : World → Except String SessionInfo × World
  checkVPNStatus : World → Except String VPNResponse × World

/-- The `switch (request.action)` of the message listener, inside its `try`. -/
def dispatch (h : Handlers) (action : Option String) (w : World) :
    Except String Response × World :=
  if action = some "getSessionSeed" then
    ((h.handleGetSessionSeed w).1.map Response.seed, (h.handleGetSessionSeed w).2)
  else if action = some "regenerateIdentity" then
    ((h.handleRegenerateIdentity w).1.map Response.regenerate,
      (h.handleRegenerateIdentity w).2)
  else if action = some "getSessionInfo" then
    ((h.getSessionInfo w).1.map Response.sessionInfo, (h.getSessionInfo w).2)
  else if action = some "checkVPN" then
    ((h.checkVPNStatus w).1.map Response.vpn, (h.checkVPNStatus w).2)
  else (.ok (.error "Unknown action"), w)

/-- A message that is neither `null` nor `undefined`: `action` is
`request.action` when that is a string and `none` otherwise (reading the
property of a primitive message gives `undefined`). -/
structure Request where
  action : Option String
  deriving DecidableEq

/-- The `sender` argument of the listener when it is an object; `tab` is
`sender.tab`. -/
structure Sender where
  tab : Option Tab
  deriving DecidableEq

/-- The async function the listener starts (lines 206 to 238): the response
passed to `sendResponse` for the given `request.action`, and the world it
leaves.  Its `catch` turns an error into `{ error: message }`. -/
def onMessageAsync (h : Handlers) (action : Option String) (w : World) : Response × World :=
  match dispatch h action w with
  | (.ok response, w) => (response, w)
  | (.error msg, w) => (.error msg, w)

/-- The `TypeError` raised by reading a property of `null` or `undefined`. -/
def typeError (property : String) : String :=
  "TypeError: cannot read property " ++ property ++ " of null or undefined"

/-- The message listener, called with `request` and `sender` (`none` is
`null` or `undefined`).  Its first statement, the `console.log` of line 203,
reads `request.action` and then `sender.tab` outside every `try`, so either
read can raise out of the listener; after it the async function is started
and answers through `sendResponse`.  The result is `.error` when the listener
raises and `.ok` of the response sent and the world left otherwise. -/
def onMessage (h : Handlers) (request : Option Request) (sender : Option Sender)
    (w : World) : Except String (Response × World) :=
  match request with
  | none => .error (typeError "action")
  | some request =>
    match sender with
    | none => .error (typeError "tab")
    | some _ => .ok (onMessageAsync h request.action w)

/-- The handlers of the service worker, given the environment, the outcome of
`chrome.tabs.query` and the outcome of the network lookup. -/
def serviceWorkerHandlers (env : Env) (tabsQuery : Except String (List Tab))
    (lookup : FetchOutcome) : Handlers :=
  { handleGetSessionSeed := fun w =>
      (.ok (handleGetSessionSeed env w).1, (handleGetSessionSeed env w).2),
    handleRegenerateIdentity := fun w =>
      (.ok (handleRegenerateIdentity env tabsQuery w).1,
        (handleRegenerateIdentity env tabsQuery w).2.1),
    getSessionInfo := fun w => (.ok (getSessionInfo env w).1, (getSessionInfo env w).2),
    checkVPNStatus := fun w => (.ok (checkVPNStatus lookup), w) }

/-- The invariant of `sessionData`: if `initialized` is true, the seed is a
non-empty string. -/
def sessionInvariant (sd : SessionData) : Prop :=
  sd.initialized = true → ∃ s, sd.seed = some s ∧ s ≠ ""

/-- Every one of `n` attempts of `restoreSession`, the first of which starts
with storage operation `k`, fails: its first read rejects, or its first read
succeeds and its second read rejects. -/
def everyRestoreFails (fails : Nat → Bool) : Nat → Nat → Bool
  | _, 0 => true
  | k, n + 1 =>
    if fails k then everyRestoreFails fails (k + 1) n
    else fails (k + 1) && everyRestoreFails fails (k + 2) n

/-- The waits of a retry loop with budget `retries` from iteration `i` on, when
every attempt fails: `500 * (i + 1)`, ..., `500 * (retries - 1)`. -/
def backoffWaits (retries i : Nat) : List Nat :=
  (List.range (retries - 1 - i)).map (fun j => 500 * (i + j + 1))

/-- An environment in which every storage operation succeeds; the random
bytes are all zero and the clock starts at 1000. -/
def workingEnv : Env :=
  { storageFails := fun _ => false, randomBytes := fun _ _ => 0, now := fun k => 1000 + k }

/-- A world with a running session whose profile in memory, stamped 600, is a
different one from the profile in the store, stamped 400. -/
def newerInMemoryWorld : World :=
  { World.initial with
    sessionData :=
      { seed := some "abc", profile := some windowsDesktop, initialized := true,
        sessionStartTime := some 500, profileTimestamp := some 600 },
    storage :=
      { sessionSeed := some "abc", sessionStartTime := some 500,
        profile := some touchDesktop, timestamp := some 400 } }

/-- A network lookup answered for a hosting company. -/
def hostingLookup : IpData :=
  { ip := some "203.0.113.7", country_name := some "Germany", country := some "DE",
    city := some "Falkenstein", region := some "Saxony", timezone := some "Europe/Berlin",
    org := some "Example Cloud Hosting GmbH", asn := some "AS64500", latitude := some 50,
    longitude := some 12 }

/-- An environment in which the storage operations succeed and reject in
turn, the first one succeeding. -/
def alternatingEnv : Env :=
  { storageFails := fun k => decide (k % 2 = 1), randomBytes := fun _ _ => 0,
    now := fun k => 1000 + k }

/-! ## Lemmas on the loop -/

theorem weight_nonneg (severity : String) : 0 ≤ weight severity := by
  unfold weight
  split_ifs <;> omega

theorem deductions_nonneg (rules : List Rule) (profile : Profile) :
    0 ≤ deductions rules profile := by
  unfold deductions
  apply List.sum_nonneg
  intro x hx
  obtain ⟨r, _, rfl⟩ := List.mem_map.1 hx
  exact weight_nonneg _

theorem deduct_score (results : Results) (severity : String) :
    (deduct results severity).score = results.score - weight severity := by
  unfold deduct weight
  split_ifs <;> simp

theorem deduct_passed (results : Results) (severity : String) :
    (deduct results severity).passed = results.passed := by
  unfold deduct
  split_ifs <;> rfl

theorem deduct_failed (results : Results) (severity : String) :
    (deduct results severity).failed = results.failed := by
  unfold deduct
  split_ifs <;> rfl

theorem deduct_issues (results : Results) (severity : String) :
    (deduct results severity).issues = results.issues := by
  unfold deduct
  split_ifs <;> rfl

theorem deduct_warnings (results : Results) (severity : String) :
    (deduct results severity).warnings = results.warnings := by
  unfold deduct
  split_ifs <;> rfl

theorem deduct_criticalIssues (results : Results) (severity : String) :
    (deduct results severity).criticalIssues =
      results.criticalIssues + (if severity = "critical" then 1 else 0) := by
  unfold deduct
  split_ifs <;> simp_all

theorem foldl_checkRule_passed (profile : Profile) (rules : List Rule) (acc : Results) :
    (rules.foldl (checkRule profile) acc).passed =
      acc.passed + rules.countP (passes profile) := by
  induction rules generalizing acc with
  | nil => simp
  | cons r rs ih =>
    rw [List.foldl_cons, ih, List.countP_cons]
    unfold checkRule passes
    rcases hc : r.check profile with msg | b
    · simp
    · cases b <;> simp [deduct_passed]
      omega

theorem foldl_checkRule_failed (profile : Profile) (rules : List Rule) (acc : Results) :
    (rules.foldl (checkRule profile) acc).failed =
      acc.failed + rules.countP (fails profile) := by
  induction rules generalizing acc with
  | nil => simp
  | cons r rs ih =>
    rw [List.foldl_cons, ih, List.countP_cons]
    unfold checkRule fails
    rcases hc : r.check profile with msg | b
    · simp
    · cases b <;> simp [deduct_failed]
      omega

theorem foldl_checkRule_score (profile : Profile) (rules : List Rule) (acc : Results) :
    (rules.foldl (checkRule profile) acc).score =
      acc.score - deductions rules profile := by
  induction rules generalizing acc with
  | nil => simp [deductions]
  | cons r rs ih =>
    rw [List.foldl_cons, ih]
    unfold checkRule deductions fails
    rcases hc : r.check profile with msg | b
    · simp [List.filter_cons, hc]
    · cases b <;> simp [List.filter_cons, hc, deduct_score]
      omega

theorem foldl_checkRule_criticalIssues (profile : Profile) (rules : List Rule)
    (acc : Results) :
    (rules.foldl (checkRule profile) acc).criticalIssues =
      acc.criticalIssues +
        rules.countP (fun r => fails profile r && decide (r.severity = "critical")) := by
  induction rules generalizing acc with
  | nil => simp
  | cons r rs ih =>
    rw [List.foldl_cons, ih, List.countP_cons]
    unfold checkRule fails
    rcases hc : r.check profile with msg | b
    · simp
    · cases b
      · by_cases hs : r.severity = "critical" <;> simp [deduct_criticalIssues, hs]
        omega
      · simp

theorem foldl_checkRule_issues (profile : Profile) (rules : List Rule) (acc : Results) :
    (rules.foldl (checkRule profile) acc).issues =
      acc.issues ++ (rules.filter (fails profile)).map issueOf := by
  induction rules generalizing acc with
  | nil => simp
  | cons r rs ih =>
    rw [List.foldl_cons, ih]
    unfold checkRule fails
    rcases hc : r.check profile with msg | b
    · simp [List.filter_cons, hc]
    · cases b <;> simp [List.filter_cons, hc, deduct_issues, issueOf]

theorem foldl_checkRule_warnings (profile : Profile) (rules : List Rule) (acc : Results) :
    (rules.foldl (checkRule profile) acc).warnings =
      acc.warnings ++ rules.filterMap (warningOf profile) := by
  induction rules generalizing acc with
  | nil => simp
  | cons r rs ih =>
    rw [List.foldl_cons, ih]
    unfold checkRule
    rcases hc : r.check profile with msg | b
    · simp [List.filterMap_cons, warningOf, hc]
    · cases b <;> simp [List.filterMap_cons, warningOf, hc, deduct_warnings]

/-! ## The claims -/

/-- C1: for every rule list and every profile, also one on which rules
raise, the score of the report returned by `checkProfile` lies between 0 and
100 inclusive. -/
theorem checkProfile_score_bounds (this : ConsistencyChecker) (profile : Profile) :
    0 ≤ (this.checkProfile profile).score ∧ (this.checkProfile profile).score ≤ 100 := by
  have hd := deductions_nonneg this.rules profile
  simp only [ConsistencyChecker.checkProfile, runRules, foldl_checkRule_score,
    Results.initial]
  constructor
  · exact le_max_left _ _
  · exact max_le (by omega) (by omega)

/-- C2, as stated, fails: on `inconsistentProfile` all ten default rules
evaluate to false, the weights add up to 135, and the score is 0 and not
100 - 135. -/
theorem checkProfile_score_not_plain_difference :
    (ConsistencyChecker.new.checkProfile inconsistentProfile).score = 0 ∧
      (100 : Int) - deductions initializeRules inconsistentProfile = -35 := by
  decide

/-- C2, amended: for every rule list and profile, the score is 100 minus the
sum of the weights (critical 30, high 20, medium 10, low 5) of the rules that
evaluate to false, floored at 0. -/
theorem checkProfile_score_eq (this : ConsistencyChecker) (profile : Profile) :
    (this.checkProfile profile).score = max 0 (100 - deductions this.rules profile) := by
  simp only [ConsistencyChecker.checkProfile, runRules, foldl_checkRule_score,
    Results.initial]

theorem criticalIssues_pos_of_fails (profile : Profile) (rules : List Rule) (r : Rule)
    (hr : r ∈ rules) (hs : r.severity = "critical") (hf : r.check profile = .ok false) :
    0 < (runRules rules profile).criticalIssues := by
  rw [runRules, foldl_checkRule_criticalIssues]
  have : 0 < rules.countP (fun r => fails profile r && decide (r.severity = "critical")) :=
    List.countP_pos_iff.2 ⟨r, hr, by simp [fails, hf, hs]⟩
  omega

/-- C3: whenever one of the two critical rules of the default set,
`Platform-UserAgent` or `WebGL-Platform`, evaluates to false, the summary of
the report is the critical one, whatever the score. -/
theorem checkProfile_summary_of_critical_failure (profile : Profile)
    (h : checkPlatformUserAgentRule profile = .ok false ∨
      checkWebGLPlatformRule profile = .ok false) :
    (ConsistencyChecker.new.checkProfile profile).summary =
      "Critical issues detected. Profile may be easily detected as fake." := by
  have hpos : 0 < (runRules initializeRules profile).criticalIssues := by
    rcases h with h | h
    · exact criticalIssues_pos_of_fails profile initializeRules
        { name := "Platform-UserAgent", check := checkPlatformUserAgentRule,
          severity := "critical", message := "Platform and UserAgent mismatch" }
        (by simp [initializeRules]) rfl h
    · exact criticalIssues_pos_of_fails profile initializeRules
        { name := "WebGL-Platform", check := checkWebGLPlatformRule,
          severity := "critical", message := "WebGL renderer incompatible with platform" }
        (by simp [initializeRules]) rfl h
  simp only [ConsistencyChecker.checkProfile, ConsistencyChecker.new, generateSummary]
  rw [if_pos hpos]

/-- Witness of C3: on `macAgentOnWindows` only `Platform-UserAgent` fails, the
score is 70, and the summary is the critical one. -/
theorem checkProfile_summary_of_critical_failure_witness :
    checkPlatformUserAgentRule macAgentOnWindows = .ok false ∧
      (ConsistencyChecker.new.checkProfile macAgentOnWindows).score = 70 ∧
      (ConsistencyChecker.new.checkProfile macAgentOnWindows).summary =
        "Critical issues detected. Profile may be easily detected as fake." :=
  ⟨by decide, by decide,
    checkProfile_summary_of_critical_failure macAgentOnWindows (Or.inl (by decide))⟩

theorem runRules_skip_raising (pre post : List Rule) (r : Rule) (profile : Profile)
    (msg : String) (h : r.check profile = .error msg) :
    (runRules (pre ++ r :: post) profile).passed = (runRules (pre ++ post) profile).passed ∧
    (runRules (pre ++ r :: post) profile).failed = (runRules (pre ++ post) profile).failed ∧
    (runRules (pre ++ r :: post) profile).score = (runRules (pre ++ post) profile).score ∧
    (runRules (pre ++ r :: post) profile).issues = (runRules (pre ++ post) profile).issues ∧
    (runRules (pre ++ r :: post) profile).criticalIssues =
      (runRules (pre ++ post) profile).criticalIssues := by
  have hp : passes profile r = false := by simp [passes, h]
  have hf : fails profile r = false := by simp [fails, h]
  simp only [runRules, foldl_checkRule_passed, foldl_checkRule_failed,
    foldl_checkRule_score, foldl_checkRule_issues, foldl_checkRule_criticalIssues,
    deductions, List.countP_append, List.countP_cons, List.filter_append,
    List.filter_cons, hp, hf]
  simp

/-- C4: for every rule list `pre ++ r :: post` and profile on which the
predicate of `r` raises with message `msg`, the report equals, in `passed`,
`failed`, `issues`, `score`, `criticalIssues` and `summary`, the report of the
list `pre ++ post` without `r`; and its warnings are the warnings of `pre`,
then the single entry for `r`, then the warnings of `post`: the rules after
`r` are still evaluated and counted. -/
theorem checkProfile_raising_rule (pre post : List Rule) (r : Rule) (profile : Profile)
    (msg : String) (h : r.check profile = .error msg) :
    let withR := ConsistencyChecker.checkProfile { rules := pre ++ r :: post } profile
    let without := ConsistencyChecker.checkProfile { rules := pre ++ post } profile
    withR.passed = without.passed ∧ withR.failed = without.failed ∧
    withR.issues = without.issues ∧ withR.score = without.score ∧
    withR.criticalIssues = without.criticalIssues ∧ withR.summary = without.summary ∧
    withR.warnings =
      (ConsistencyChecker.checkProfile { rules := pre } profile).warnings ++
        { rule := r.name, error := msg } ::
          (ConsistencyChecker.checkProfile { rules := post } profile).warnings ∧
    withR.passed =
      (ConsistencyChecker.checkProfile { rules := pre } profile).passed +
        (ConsistencyChecker.checkProfile { rules := post } profile).passed ∧
    withR.failed =
      (ConsistencyChecker.checkProfile { rules := pre } profile).failed +
        (ConsistencyChecker.checkProfile { rules := post } profile).failed := by
  obtain ⟨h1, h2, h3, h4, h5⟩ := runRules_skip_raising pre post r profile msg h
  have hp : passes profile r = false := by simp [passes, h]
  have hf : fails profile r = false := by simp [fails, h]
  simp only [ConsistencyChecker.checkProfile, generateSummary, h1, h2, h3, h4, h5]
  refine ⟨trivial, trivial, trivial, trivial, trivial, trivial, ?_, ?_, ?_⟩
  · simp only [runRules, foldl_checkRule_warnings]
    simp [List.filterMap_append, List.filterMap_cons, warningOf, h, Results.initial]
  · simp only [runRules, foldl_checkRule_passed]
    simp [List.countP_append, Results.initial]
  · simp only [runRules, foldl_checkRule_failed]
    simp [List.countP_append, Results.initial]

/-- Witness of C4: on `noWebGL` the second default rule, `WebGL-Platform`,
raises; the first rule and the eight after it are counted as passed. -/
theorem checkProfile_raising_rule_witness :
    (ConsistencyChecker.new.checkProfile noWebGL).passed = 9 ∧
    (ConsistencyChecker.new.checkProfile noWebGL).score = 100 ∧
    (ConsistencyChecker.new.checkProfile noWebGL).warnings =
      [{ rule := "WebGL-Platform",
         error := "Cannot read properties of undefined (reading renderer)" }] ∧
    (ConsistencyChecker.new.checkProfile noWebGL).passed =
      (ConsistencyChecker.checkProfile
        { rules := initializeRules.take 1 ++ initializeRules.drop 2 } noWebGL).passed :=
  ⟨by decide, by decide, by decide,
    (checkProfile_raising_rule (initializeRules.take 1) (initializeRules.drop 2)
      { name := "WebGL-Platform", check := checkWebGLPlatformRule,
        severity := "critical", message := "WebGL renderer incompatible with platform" }
      noWebGL "Cannot read properties of undefined (reading renderer)" (by decide)).1⟩

/-- C5: for every rule list and every profile on which every rule evaluates
to true, `checkProfile` returns score 100, failed 0, no issue, criticalIssues
0 and the `excellent` summary. -/
theorem checkProfile_all_pass (this : ConsistencyChecker) (profile : Profile)
    (h : ∀ r ∈ this.rules, r.check profile = .ok true) :
    (this.checkProfile profile).score = 100 ∧
    (this.checkProfile profile).failed = 0 ∧
    (this.checkProfile profile).issues = [] ∧
    (this.checkProfile profile).criticalIssues = 0 ∧
    (this.checkProfile profile).summary =
      "Excellent consistency. Profile appears genuine." := by
  have hfil : this.rules.filter (fails profile) = [] := by
    apply List.filter_eq_nil_iff.2
    intro r hr
    simp [fails, h r hr]
  have hcnt : this.rules.countP (fails profile) = 0 := by
    rw [List.countP_eq_length_filter, hfil]; rfl
  have hcrit : this.rules.countP
      (fun r => fails profile r && decide (r.severity = "critical")) = 0 := by
    apply List.countP_eq_zero.2
    intro r hr
    simp [fails, h r hr]
  have hscore : (runRules this.rules profile).score = 100 := by
    simp [runRules, foldl_checkRule_score, deductions, hfil, Results.initial]
  have hc : (runRules this.rules profile).criticalIssues = 0 := by
    simp only [runRules, foldl_checkRule_criticalIssues, hcrit, Results.initial]
  refine ⟨?_, ?_, ?_, ?_, ?_⟩
  · simp [ConsistencyChecker.checkProfile, hscore]
  · simp [ConsistencyChecker.checkProfile, runRules, foldl_checkRule_failed, hcnt,
      Results.initial]
  · simp [ConsistencyChecker.checkProfile, runRules, foldl_checkRule_issues, hfil,
      Results.initial]
  · simp [ConsistencyChecker.checkProfile, hc]
  · simp [ConsistencyChecker.checkProfile, generateSummary, hc, hscore]

/-- Witness of C5: the default rule set on `windowsDesktop`. -/
theorem checkProfile_all_pass_witness :
    (∀ r ∈ ConsistencyChecker.new.rules, r.check windowsDesktop = .ok true) ∧
    (ConsistencyChecker.new.checkProfile windowsDesktop).score = 100 ∧
    (ConsistencyChecker.new.checkProfile windowsDesktop).failed = 0 ∧
    (ConsistencyChecker.new.checkProfile windowsDesktop).issues = [] ∧
    (ConsistencyChecker.new.checkProfile windowsDesktop).criticalIssues = 0 ∧
    (ConsistencyChecker.new.checkProfile windowsDesktop).summary =
      "Excellent consistency. Profile appears genuine." :=
  ⟨by decide, checkProfile_all_pass ConsistencyChecker.new windowsDesktop (by decide)⟩

/-- C6: for every `results` with no critical failure, `generateSummary`
classifies by the score alone, with thresholds 90, 70 and 50: `excellent`
exactly from 90 up, `good` exactly on 70..89, `moderate` exactly on 50..69,
`poor` exactly below 50. -/
theorem generateSummary_thresholds (results : Results) (h : results.criticalIssues = 0) :
    (generateSummary results = "Excellent consistency. Profile appears genuine." ↔
      90 ≤ results.score) ∧
    (generateSummary results = "Good consistency with minor issues." ↔
      70 ≤ results.score ∧ results.score < 90) ∧
    (generateSummary results = "Moderate consistency. Some detection risk." ↔
      50 ≤ results.score ∧ results.score < 70) ∧
    (generateSummary results = "Poor consistency. High risk of detection." ↔
      results.score < 50) := by
  unfold generateSummary
  rw [if_neg (by omega)]
  split_ifs <;> simp <;> omega

/-- Witness of C6: a `results` value with score 75 and no critical failure is
classified `good`. -/
theorem generateSummary_thresholds_witness :
    generateSummary { Results.initial with score := 75 } =
      "Good consistency with minor issues." :=
  ((generateSummary_thresholds { Results.initial with score := 75 } rfl).2.1).2
    ⟨by decide, by decide⟩

/-- C7, as stated, fails: the default rule set does not have 11 rules. -/
theorem initializeRules_length_ne_eleven : initializeRules.length ≠ 11 := by
  decide

/-- C7, amended: the default rule set built by `initializeRules` contains
exactly 10 rules. -/
theorem initializeRules_length : initializeRules.length = 10 := rfl

/-- C8, as stated, fails: `touchDesktop` has a non-mobile user agent and five
touch points, and rule `Touch-DeviceType` passes on it although
`maxTouchPoints` is not zero. -/
theorem touchDeviceType_not_zero_iff :
    ¬ (checkTouchDeviceTypeRule touchDesktop = .ok true ↔
        (isMobileUA (toLowerCase "Mozilla/5.0 (Windows NT 10.0; Win64; x64) AppleWebKit/537.36 Chrome/120.0.0.0 Safari/537.36") = false →
          (some 5 : Num) = some 0) ∧
        (isMobileUA (toLowerCase "Mozilla/5.0 (Windows NT 10.0; Win64; x64) AppleWebKit/537.36 Chrome/120.0.0.0 Safari/537.36") = true →
          (some 5 : Num) ≠ some 0)) := by
  intro h
  have h1 := (h.1 (by decide)).1 (by decide)
  exact absurd h1 (by decide)

/-- C8, amended: on every profile whose navigator and user agent are present
rule `Touch-DeviceType` returns a verdict, and it passes if and only if
`maxTouchPoints` is not 0 when the user agent is mobile and is not greater
than 10 when the user agent is non-mobile. -/
theorem touchDeviceType_passes_iff (profile : Profile) (nav : Navigator) (ua : String)
    (hnav : profile.navigator = some nav) (hua : nav.userAgent = some ua) :
    (checkTouchDeviceTypeRule profile = .ok true ↔
      (isMobileUA (toLowerCase ua) = true → nav.maxTouchPoints ≠ some 0) ∧
      (isMobileUA (toLowerCase ua) = false →
        ∀ q : ℚ, nav.maxTouchPoints = some q → q ≤ 10)) ∧
    (checkTouchDeviceTypeRule profile = .ok false ↔
      (isMobileUA (toLowerCase ua) = true ∧ nav.maxTouchPoints = some 0) ∨
      (isMobileUA (toLowerCase ua) = false ∧
        ∃ q : ℚ, nav.maxTouchPoints = some q ∧ 10 < q)) := by
  simp only [checkTouchDeviceTypeRule, userAgentLower, readThrough, hnav, hua, bind,
    Except.bind, pure, Except.pure]
  cases hm : isMobileUA (toLowerCase ua) <;> cases ht : nav.maxTouchPoints <;>
    simp [Num.strictEq, Num.gt]

/-- Witness of C8: `touchDesktop` (non-mobile, five touch points) passes. -/
theorem touchDeviceType_passes_iff_witness :
    checkTouchDeviceTypeRule touchDesktop = .ok true ↔
      (isMobileUA (toLowerCase "Mozilla/5.0 (Windows NT 10.0; Win64; x64) AppleWebKit/537.36 Chrome/120.0.0.0 Safari/537.36") = true →
        (some 5 : Num) ≠ some 0) ∧
      (isMobileUA (toLowerCase "Mozilla/5.0 (Windows NT 10.0; Win64; x64) AppleWebKit/537.36 Chrome/120.0.0.0 Safari/537.36") = false →
        ∀ q : ℚ, (some 5 : Num) = some q → q ≤ 10) :=
  (touchDeviceType_passes_iff touchDesktop _ _ rfl rfl).1

/-! ## `checkProfile` on the heap -/

theorem HeapM.agrees_pure {α : Type} (heap : Profile) (a : α) :
    HeapM.AgreesAt heap (pure a) (pure a) := rfl

theorem HeapM.agrees_eval {α : Type} (heap : Profile) (e : Profile → Except String α) :
    HeapM.AgreesAt heap (HeapM.eval e) (e heap) := rfl

theorem HeapM.agrees_ofExcept {α : Type} (heap : Profile) (e : Except String α) :
    HeapM.AgreesAt heap (HeapM.ofExcept e) e := rfl

theorem HeapM.agrees_bind {α β : Type} (heap : Profile) (m : HeapM α) (e : Except String α)
    (f : α → HeapM β) (g : α → Except String β) (hm : HeapM.AgreesAt heap m e)
    (hf : ∀ a, HeapM.AgreesAt heap (f a) (g a)) :
    HeapM.AgreesAt heap (bind m f) (bind e g) := by
  unfold HeapM.AgreesAt at hm hf ⊢
  show (match m heap with
    | (.ok a, heap1) => f a heap1
    | (.error er, heap1) => (.error er, heap1)) = (bind e g, heap)
  rw [hm]
  cases e with
  | error er => rfl
  | ok a => exact hf a

theorem HeapM.agrees_ite {α : Type} (heap : Profile) (c : Prop) [Decidable c]
    (m1 m2 : HeapM α) (e1 e2 : Except String α) (h1 : HeapM.AgreesAt heap m1 e1)
    (h2 : HeapM.AgreesAt heap m2 e2) :
    HeapM.AgreesAt heap (if c then m1 else m2) (if c then e1 else e2) := by
  split_ifs
  · exact h1
  · exact h2

theorem HeapM.agrees_bind_value {α β : Type} (heap : Profile) (v : Profile → α)
    (f : α → HeapM β) (e : Except String β) (h : HeapM.AgreesAt heap (f (v heap)) e) :
    HeapM.AgreesAt heap (bind (HeapM.eval (fun profile => .ok (v profile))) f) e := h

theorem checkPlatformUserAgentRuleOnHeap_reads :
    HeapM.Reads checkPlatformUserAgentRuleOnHeap checkPlatformUserAgentRule := by
  intro heap
  simp only [checkPlatformUserAgentRuleOnHeap, checkPlatformUserAgentRule]
  repeat' first
    | exact HeapM.agrees_pure heap _
    | exact HeapM.agrees_eval heap _
    | exact HeapM.agrees_ofExcept heap _
    | apply HeapM.agrees_bind
    | apply HeapM.agrees_ite
    | intro _

theorem checkWebGLPlatformRuleOnHeap_reads :
    HeapM.Reads checkWebGLPlatformRuleOnHeap checkWebGLPlatformRule := by
  intro heap
  simp only [checkWebGLPlatformRuleOnHeap, checkWebGLPlatformRule]
  repeat' first
    | exact HeapM.agrees_pure heap _
    | exact HeapM.agrees_eval heap _
    | exact HeapM.agrees_ofExcept heap _
    | apply HeapM.agrees_bind
    | apply HeapM.agrees_ite
    | intro _

theorem checkTouchDeviceTypeRuleOnHeap_reads :
    HeapM.Reads checkTouchDeviceTypeRuleOnHeap checkTouchDeviceTypeRule := by
  intro heap
  simp only [checkTouchDeviceTypeRuleOnHeap, checkTouchDeviceTypeRule]
  repeat' first
    | exact HeapM.agrees_pure heap _
    | exact HeapM.agrees_eval heap _
    | exact HeapM.agrees_ofExcept heap _
    | apply HeapM.agrees_bind
    | apply HeapM.agrees_ite
    | intro _

theorem checkResolutionDeviceTypeRuleOnHeap_reads :
    HeapM.Reads checkResolutionDeviceTypeRuleOnHeap checkResolutionDeviceTypeRule := by
  intro heap
  simp only [checkResolutionDeviceTypeRuleOnHeap, checkResolutionDeviceTypeRule]
  repeat' first
    | exact HeapM.agrees_pure heap _
    | exact HeapM.agrees_eval heap _
    | exact HeapM.agrees_ofExcept heap _
    | apply HeapM.agrees_bind
    | apply HeapM.agrees_ite
    | intro _

theorem checkHardwareDeviceTypeRuleOnHeap_reads :
    HeapM.Reads checkHardwareDeviceTypeRuleOnHeap checkHardwareDeviceTypeRule := by
  intro heap
  simp only [checkHardwareDeviceTypeRuleOnHeap, checkHardwareDeviceTypeRule]
  repeat' first
    | exact HeapM.agrees_pure heap _
    | exact HeapM.agrees_eval heap _
    | exact HeapM.agrees_ofExcept heap _
    | apply HeapM.agrees_bind
    | apply HeapM.agrees_ite
    | intro _

theorem checkPluginsPlatformRuleOnHeap_reads :
    HeapM.Reads checkPluginsPlatformRuleOnHeap checkPluginsPlatformRule := by
  intro heap
  simp only [checkPluginsPlatformRuleOnHeap, checkPluginsPlatformRule]
  repeat' first
    | exact HeapM.agrees_pure heap _
    | exact HeapM.agrees_eval heap _
    | exact HeapM.agrees_ofExcept heap _
    | apply HeapM.agrees_bind
    | apply HeapM.agrees_ite
    | intro _

theorem checkColorDepthPlatformRuleOnHeap_reads :
    HeapM.Reads checkColorDepthPlatformRuleOnHeap checkColorDepthPlatformRule := by
  intro heap
  simp only [checkColorDepthPlatformRuleOnHeap, checkColorDepthPlatformRule]
  repeat' first
    | exact HeapM.agrees_pure heap _
    | exact HeapM.agrees_eval heap _
    | exact HeapM.agrees_ofExcept heap _
    | apply HeapM.agrees_bind
    | apply HeapM.agrees_ite
    | intro _

theorem checkFontsPlatformRuleOnHeap_reads :
    HeapM.Reads checkFontsPlatformRuleOnHeap checkFontsPlatformRule := by
  intro heap
  simp only [checkFontsPlatformRuleOnHeap, checkFontsPlatformRule]
  repeat' first
    | exact HeapM.agrees_pure heap _
    | exact HeapM.agrees_eval heap _
    | exact HeapM.agrees_ofExcept heap _
    | apply HeapM.agrees_bind
    | apply HeapM.agrees_ite
    | intro _

theorem checkBatteryDeviceTypeRuleOnHeap_reads :
    HeapM.Reads checkBatteryDeviceTypeRuleOnHeap checkBatteryDeviceTypeRule := by
  intro heap
  simp only [checkBatteryDeviceTypeRuleOnHeap, checkBatteryDeviceTypeRule]
  apply HeapM.agrees_bind_value
  repeat' first
    | exact HeapM.agrees_pure heap _
    | exact HeapM.agrees_eval heap _
    | exact HeapM.agrees_ofExcept heap _
    | apply HeapM.agrees_bind
    | apply HeapM.agrees_ite
    | intro _

theorem checkLanguageTimezoneRuleOnHeap_reads :
    HeapM.Reads checkLanguageTimezoneRuleOnHeap checkLanguageTimezoneRule := by
  intro heap
  simp only [checkLanguageTimezoneRuleOnHeap, checkLanguageTimezoneRule]
  apply HeapM.agrees_bind _ _ _ _ _ (HeapM.agrees_eval heap _)
  intro nav
  apply HeapM.agrees_bind _ _ _ _ _ (HeapM.agrees_ofExcept heap _)
  intro language
  apply HeapM.agrees_bind _ _ _ _ _ (HeapM.agrees_eval heap _)
  intro tz
  cases tz.name with
  | none => exact HeapM.agrees_pure heap _
  | some timezone =>
    simp only []
    cases timezoneLanguages.lookup timezone with
    | some expectedLangs =>
      simp only []
      repeat' first
        | exact HeapM.agrees_pure heap _
        | exact HeapM.agrees_eval heap _
        | exact HeapM.agrees_ofExcept heap _
        | apply HeapM.agrees_bind
        | apply HeapM.agrees_ite

    | none =>
      simp only []
      repeat' first
        | exact HeapM.agrees_pure heap _
        | exact HeapM.agrees_eval heap _
        | exact HeapM.agrees_ofExcept heap _
        | apply HeapM.agrees_bind
        | apply HeapM.agrees_ite


theorem checkRuleOnHeap_of_reads (rule : HeapRule) (r : Rule) (h : HeapRule.Reads rule r)
    (results : Results) (profile : Profile) :
    checkRuleOnHeap (results, profile) rule = (checkRule profile results r, profile) := by
  obtain ⟨hn, hs, hm, hc⟩ := h
  have hrun : rule.check profile = (r.check profile, profile) := hc profile
  simp only [checkRuleOnHeap, checkRule, hrun, hn, hs, hm]
  cases r.check profile with
  | error msg => rfl
  | ok passed => cases passed <;> rfl

theorem foldl_checkRuleOnHeap_of_reads (profile : Profile) :
    ∀ (rules : List HeapRule) (rs : List Rule), List.Forall₂ HeapRule.Reads rules rs →
      ∀ results : Results,
        rules.foldl checkRuleOnHeap (results, profile) =
          (rs.foldl (checkRule profile) results, profile) := by
  intro rules rs h
  induction h with
  | nil => intro results; rfl
  | cons hhead _ ih =>
    intro results
    rw [List.foldl_cons, List.foldl_cons, checkRuleOnHeap_of_reads _ _ hhead, ih]

theorem checkProfileOnHeap_of_reads (rules : List HeapRule) (rs : List Rule)
    (h : List.Forall₂ HeapRule.Reads rules rs) (profile : Profile) :
    checkProfileOnHeap rules profile =
      (ConsistencyChecker.checkProfile { rules := rs } profile, profile) := by
  simp only [checkProfileOnHeap, ConsistencyChecker.checkProfile, runRules,
    foldl_checkRuleOnHeap_of_reads profile rules rs h]

theorem initializeRulesOnHeap_reads :
    List.Forall₂ HeapRule.Reads initializeRulesOnHeap initializeRules := by
  simp only [initializeRulesOnHeap, initializeRules]
  refine .cons ⟨rfl, rfl, rfl, checkPlatformUserAgentRuleOnHeap_reads⟩ ?_
  refine .cons ⟨rfl, rfl, rfl, checkWebGLPlatformRuleOnHeap_reads⟩ ?_
  refine .cons ⟨rfl, rfl, rfl, checkTouchDeviceTypeRuleOnHeap_reads⟩ ?_
  refine .cons ⟨rfl, rfl, rfl, checkResolutionDeviceTypeRuleOnHeap_reads⟩ ?_
  refine .cons ⟨rfl, rfl, rfl, checkHardwareDeviceTypeRuleOnHeap_reads⟩ ?_
  refine .cons ⟨rfl, rfl, rfl, checkLanguageTimezoneRuleOnHeap_reads⟩ ?_
  refine .cons ⟨rfl, rfl, rfl, checkPluginsPlatformRuleOnHeap_reads⟩ ?_
  refine .cons ⟨rfl, rfl, rfl, checkColorDepthPlatformRuleOnHeap_reads⟩ ?_
  refine .cons ⟨rfl, rfl, rfl, checkFontsPlatformRuleOnHeap_reads⟩ ?_
  exact .cons ⟨rfl, rfl, rfl, checkBatteryDeviceTypeRuleOnHeap_reads⟩ .nil

/-- The loop of `checkProfile` hands on what a predicate assigns: with a rule
that deletes the battery facet after the ten default ones, a call leaves the
caller another profile object, and a second call on that object returns
another report. -/
theorem checkProfileOnHeap_hands_on_assignments :
    (checkProfileOnHeap (initializeRulesOnHeap ++ [forgetBatteryRule]) windowsDesktop).2 ≠
      windowsDesktop ∧
    (checkProfileOnHeap (initializeRulesOnHeap ++ [forgetBatteryRule])
        (checkProfileOnHeap (initializeRulesOnHeap ++ [forgetBatteryRule])
          windowsDesktop).2).1 ≠
      (checkProfileOnHeap (initializeRulesOnHeap ++ [forgetBatteryRule]) windowsDesktop).1 := by
  decide

/-- C9: `checkProfile` with the default rules is deterministic and free of
side effects.  With the profile as an object on the heap that every predicate
is handed in turn, a call leaves the object equal to what it was, a second
call on it returns a report equal to the first (all of `passed`, `failed`,
`score`, `issues`, `criticalIssues`, `warnings`, `summary`), and that report
is the value `checkProfile` computes from the profile alone.  This holds for
every profile, complete or not. -/
theorem checkProfile_deterministic_pure (profile : Profile) :
    (checkProfileOnHeap initializeRulesOnHeap profile).2 = profile ∧
    (checkProfileOnHeap initializeRulesOnHeap
        (checkProfileOnHeap initializeRulesOnHeap profile).2).1 =
      (checkProfileOnHeap initializeRulesOnHeap profile).1 ∧
    (checkProfileOnHeap initializeRulesOnHeap profile).1 =
      ConsistencyChecker.new.checkProfile profile := by
  have h := checkProfileOnHeap_of_reads _ _ initializeRulesOnHeap_reads profile
  refine ⟨?_, ?_, ?_⟩
  · rw [h]
  · rw [h]
    exact congrArg Prod.fst h
  · rw [h]
    rfl

theorem deductions_perm (rules₁ rules₂ : List Rule) (profile : Profile)
    (h : rules₁.Perm rules₂) : deductions rules₁ profile = deductions rules₂ profile := by
  unfold deductions
  exact ((h.filter _).map _).sum_eq

/-- C10: for every profile and every two rule lists that are permutations of
each other, `checkProfile` returns the same score, passed count, failed
count, criticalIssues count and summary; the issues and the warnings are the
same up to order. -/
theorem checkProfile_perm (rules₁ rules₂ : List Rule) (profile : Profile)
    (h : rules₁.Perm rules₂) :
    let a := ConsistencyChecker.checkProfile { rules := rules₁ } profile
    let b := ConsistencyChecker.checkProfile { rules := rules₂ } profile
    a.score = b.score ∧ a.passed = b.passed ∧ a.failed = b.failed ∧
    a.criticalIssues = b.criticalIssues ∧ a.summary = b.summary ∧
    a.issues.Perm b.issues ∧ a.warnings.Perm b.warnings := by
  have hs : (runRules rules₁ profile).score = (runRules rules₂ profile).score := by
    simp only [runRules, foldl_checkRule_score, deductions_perm _ _ profile h]
  have hc : (runRules rules₁ profile).criticalIssues =
      (runRules rules₂ profile).criticalIssues := by
    simp only [runRules, foldl_checkRule_criticalIssues, h.countP_eq]
  simp only [ConsistencyChecker.checkProfile, generateSummary, hs, hc]
  refine ⟨trivial, ?_, ?_, trivial, trivial, ?_, ?_⟩
  · simp only [runRules, foldl_checkRule_passed, h.countP_eq]
  · simp only [runRules, foldl_checkRule_failed, h.countP_eq]
  · simp only [runRules, foldl_checkRule_issues]
    exact ((h.filter _).map _).append_left _
  · simp only [runRules, foldl_checkRule_warnings]
    exact (h.filterMap _).append_left _

/-- Witness of C10: the default rule set in reverse order, on
`macAgentOnWindows`. -/
theorem checkProfile_perm_witness :
    (ConsistencyChecker.checkProfile { rules := initializeRules.reverse }
        macAgentOnWindows).score =
      (ConsistencyChecker.checkProfile { rules := initializeRules }
        macAgentOnWindows).score :=
  (checkProfile_perm initializeRules.reverse initializeRules macAgentOnWindows
    (List.reverse_perm _)).1

/-! ## Lemmas on strings -/

theorem startsWithChars_iff (p s : List Char) : startsWithChars p s = true ↔ p <+: s := by
  induction p generalizing s with
  | nil => simp [startsWithChars]
  | cons a as ih =>
    cases s with
    | nil => simp [startsWithChars]
    | cons b bs => simp [startsWithChars, ih]

theorem includesChars_iff (sub s : List Char) : includesChars sub s = true ↔ sub <:+: s := by
  induction s with
  | nil => simp [includesChars]
  | cons c cs ih =>
    rw [includesChars, Bool.or_eq_true, startsWithChars_iff, ih, List.infix_cons_iff]

theorem infix_map_iff {α β : Type} (f : α → β) (sub : List β) (l : List α) :
    sub <:+: l.map f ↔ ∃ w, w <:+: l ∧ w.map f = sub := by
  constructor
  · rintro ⟨a, b, h⟩
    obtain ⟨l₁, l₂, rfl, h₁, rfl⟩ := List.map_eq_append_iff.1 h.symm
    obtain ⟨l₃, l₄, rfl, rfl, rfl⟩ := List.map_eq_append_iff.1 h₁
    exact ⟨l₄, ⟨l₃, l₂, rfl⟩, rfl⟩
  · rintro ⟨w, hw, rfl⟩
    exact hw.map f

theorem includes_toLowerCase_iff (s sub : String) :
    includes (toLowerCase s) sub = true ↔
      ∃ w : List Char, w <:+: s.data ∧ w.map Char.toLower = sub.data := by
  simp only [includes, toLowerCase, includesChars_iff, infix_map_iff]

/-- C11: for every user agent `ua`, `checkPlatformUA("Win32", ua)` is
consistent exactly when `ua` has a substring that reads `windows` after
lower-casing, that is, contains `windows` in any letter case; so a user agent
containing `Windows NT 10.0` is consistent and one without `windows`, such as
a Macintosh user agent, is not.  `checkValueConsistency` with type
`platform-ua` returns the same verdict. -/
theorem checkPlatformUA_win32 (ua : String) :
    (checkPlatformUA "Win32" ua = true ↔
      ∃ w : List Char, w <:+: ua.data ∧ w.map Char.toLower = "windows".data) ∧
    (includes ua "Windows NT 10.0" = true → checkPlatformUA "Win32" ua = true) ∧
    checkValueConsistency "Win32" ua "platform-ua" = checkPlatformUA "Win32" ua := by
  have hw : includes (toLowerCase "Win32") "win" = true := by decide
  have hm : includes (toLowerCase "Win32") "mac" = false := by decide
  have hl : includes (toLowerCase "Win32") "linux" = false := by decide
  have key : checkPlatformUA "Win32" ua = includes (toLowerCase ua) "windows" := by
    simp only [checkPlatformUA, hw, hm, hl]
    cases includes (toLowerCase ua) "windows" <;> simp
  refine ⟨?_, ?_, ?_⟩
  · rw [key, includes_toLowerCase_iff]
  · intro h
    rw [key, includes_toLowerCase_iff]
    have h1 : "Windows NT 10.0".data <:+: ua.data := (includesChars_iff _ _).1 h
    have h2 : "Windows".data <:+: "Windows NT 10.0".data :=
      (includesChars_iff _ _).1 (by decide)
    exact ⟨"Windows".data, h2.trans h1, by decide⟩
  · simp [checkValueConsistency]

/-- Witness of C11: a Chrome user agent on Windows 10 is consistent with
platform `Win32`, a Safari user agent on a Macintosh is not. -/
theorem checkPlatformUA_win32_witness :
    checkPlatformUA "Win32"
        "Mozilla/5.0 (Windows NT 10.0; Win64; x64) AppleWebKit/537.36 Chrome/120.0.0.0 Safari/537.36" =
      true ∧
    checkPlatformUA "Win32"
        "Mozilla/5.0 (Macintosh; Intel Mac OS X 10_15_7) AppleWebKit/605.1.15 Safari/605.1.15" =
      false :=
  ⟨(checkPlatformUA_win32 _).2.1 (by decide), by decide⟩

theorem checkLanguageTimezoneRule_false_iff (profile : Profile) (nav : Navigator)
    (tz : Timezone) (language : String) (hnav : profile.navigator = some nav)
    (hlang : nav.language = some language) (htz : profile.timezone = some tz) :
    checkLanguageTimezoneRule profile = .ok false ↔
      ∃ timezone langs, tz.name = some timezone ∧
        timezoneLanguages.lookup timezone = some langs ∧
        splitHyphenFirst language ∉ langs := by
  simp only [checkLanguageTimezoneRule, readThrough, hnav, hlang, htz, bind, Except.bind,
    pure, Except.pure]
  cases hname : tz.name with
  | none => simp
  | some timezone =>
    cases hl : timezoneLanguages.lookup timezone with
    | none =>
      simp only [hl, throw, throwThe, MonadExceptOf.throw]
      split_ifs <;> simp [hl]
    | some langs =>
      by_cases hc : splitHyphenFirst language ∈ langs
      · simp [hl, hc]
      · simp [hl, hc]

/-- C12 (defect of the code): on `inheritedTimezone`, whose timezone name
`toString` has no entry in the table, rule `Language-Timezone` does not pass:
the lookup yields the inherited method, the predicate raises, and
`checkProfile` records a warning and counts nine passed rules. -/
theorem languageTimezone_raises_on_inherited_key :
    timezoneLanguages.lookup "toString" = none ∧
    checkLanguageTimezoneRule inheritedTimezone =
      .error "expectedLangs.includes is not a function" ∧
    (ConsistencyChecker.new.checkProfile inheritedTimezone).passed = 9 ∧
    (ConsistencyChecker.new.checkProfile inheritedTimezone).warnings =
      [{ rule := "Language-Timezone", error := "expectedLangs.includes is not a function" }] := by
  decide

theorem checkWebGLPlatformRule_eq (profile : Profile) (nav : Navigator) (webgl : WebGL)
    (platform renderer : String) (hnav : profile.navigator = some nav)
    (hpl : nav.platform = some platform) (hgl : profile.webgl = some webgl)
    (hr : webgl.renderer = some renderer) :
    checkWebGLPlatformRule profile = .ok (!implausibleRenderer platform renderer) := by
  simp only [checkWebGLPlatformRule, platformLower, readThrough, hnav, hpl, hgl, hr, bind,
    Except.bind, pure, Except.pure, implausibleRenderer]
  cases includes (toLowerCase platform) "win" <;>
  cases includes (toLowerCase platform) "mac" <;>
  cases includes (toLowerCase platform) "linux" <;>
  cases includes (toLowerCase renderer) "apple" <;>
  cases includes (toLowerCase renderer) "direct3d" <;>
  cases includes (toLowerCase renderer) "d3d" <;>
  cases includes (toLowerCase renderer) "nvidia" <;>
  cases includes (toLowerCase renderer) "amd" <;>
  cases includes (toLowerCase renderer) "intel" <;> rfl

theorem weight_le_deductions (rules : List Rule) (profile : Profile) (r : Rule)
    (hr : r ∈ rules) (hf : r.check profile = .ok false) :
    weight r.severity ≤ deductions rules profile := by
  unfold deductions
  apply List.single_le_sum
  · intro x hx
    obtain ⟨r', _, rfl⟩ := List.mem_map.1 hx
    exact weight_nonneg _
  · exact List.mem_map.2 ⟨r, List.mem_filter.2 ⟨hr, by simp [fails, hf]⟩, rfl⟩

theorem issueOf_mem_of_fails (rules : List Rule) (profile : Profile) (r : Rule)
    (hr : r ∈ rules) (hf : r.check profile = .ok false) :
    issueOf r ∈ (runRules rules profile).issues := by
  rw [runRules, foldl_checkRule_issues]
  apply List.mem_append_right
  exact List.mem_map.2 ⟨r, List.mem_filter.2 ⟨hr, by simp [fails, hf]⟩, rfl⟩

/-- C13: on every profile that holds a platform and a renderer, if the
renderer is implausible for the platform then `checkProfile` records the issue
`WebGL-Platform` of severity critical, counts at least one critical issue and
gives a score of at most 70; for every other pair rule `WebGL-Platform`
passes. -/
theorem webglPlatform_verdict (profile : Profile) (nav : Navigator) (webgl : WebGL)
    (platform renderer : String) (hnav : profile.navigator = some nav)
    (hpl : nav.platform = some platform) (hgl : profile.webgl = some webgl)
    (hr : webgl.renderer = some renderer) :
    (implausibleRenderer platform renderer = true →
      ({ name := "WebGL-Platform", severity := "critical",
         message := "WebGL renderer incompatible with platform" } : Issue) ∈
        (ConsistencyChecker.new.checkProfile profile).issues ∧
      1 ≤ (ConsistencyChecker.new.checkProfile profile).criticalIssues ∧
      (ConsistencyChecker.new.checkProfile profile).score ≤ 70) ∧
    (implausibleRenderer platform renderer = false →
      checkWebGLPlatformRule profile = .ok true) := by
  have key := checkWebGLPlatformRule_eq profile nav webgl platform renderer hnav hpl hgl hr
  constructor
  · intro himp
    rw [himp] at key
    have hmem : (⟨"WebGL-Platform", checkWebGLPlatformRule, "critical",
        "WebGL renderer incompatible with platform"⟩ : Rule) ∈ initializeRules := by
      simp [initializeRules]
    have h1 := issueOf_mem_of_fails initializeRules profile _ hmem key
    have h2 := criticalIssues_pos_of_fails profile initializeRules _ hmem rfl key
    have h3 := weight_le_deductions initializeRules profile _ hmem key
    have h4 : weight "critical" = 30 := by decide
    refine ⟨h1, h2, ?_⟩
    simp only [ConsistencyChecker.checkProfile, ConsistencyChecker.new, runRules,
      foldl_checkRule_score, Results.initial]
    rw [h4] at h3
    exact max_le (by omega) (by omega)
  · intro himp
    rw [himp] at key
    exact key

/-- Witness of C13: on `inconsistentProfile` the platform is `Win32` and the
renderer `Apple M1`. -/
theorem webglPlatform_verdict_witness :
    ({ name := "WebGL-Platform", severity := "critical",
       message := "WebGL renderer incompatible with platform" } : Issue) ∈
      (ConsistencyChecker.new.checkProfile inconsistentProfile).issues ∧
    1 ≤ (ConsistencyChecker.new.checkProfile inconsistentProfile).criticalIssues ∧
    (ConsistencyChecker.new.checkProfile inconsistentProfile).score ≤ 70 :=
  (webglPlatform_verdict inconsistentProfile _ _ "Win32" "Apple M1" rfl rfl rfl rfl).1
    (by decide)

/-- C14, as stated, fails for each of the three predicates: a Linux platform
with a Firefox-for-Android user agent, an Intel renderer without Direct3D on
`Win32`, and Spanish in `America/New_York` are rejected by the rules and
accepted by the standalone predicates; English in `Asia/Kolkata` is accepted
by the rule and rejected by `checkTimezoneLanguage`. -/
theorem pairwise_predicates_differ_from_rules :
    (checkPlatformUserAgentRule
        (profileOfPlatformUA "Linux armv8l"
          "Mozilla/5.0 (Android 13; Mobile; rv:109.0) Gecko/109.0 Firefox/109.0") =
        .ok false ∧
      checkPlatformUA "Linux armv8l"
        "Mozilla/5.0 (Android 13; Mobile; rv:109.0) Gecko/109.0 Firefox/109.0" = true) ∧
    (checkWebGLPlatformRule
        (profileOfRendererPlatform "ANGLE (Intel, Mesa Intel UHD Graphics 620)" "Win32") =
        .ok false ∧
      checkWebGLPlatform "ANGLE (Intel, Mesa Intel UHD Graphics 620)" "Win32" = true) ∧
    (checkLanguageTimezoneRule (profileOfTimezoneLanguage "America/New_York" "es-US") =
        .ok false ∧
      checkTimezoneLanguage "America/New_York" "es-US" = true) ∧
    (checkLanguageTimezoneRule (profileOfTimezoneLanguage "Asia/Kolkata" "en-IN") =
        .ok true ∧
      checkTimezoneLanguage "Asia/Kolkata" "en-IN" = false) := by
  decide

theorem mem_of_lookup_eq_some (table : List (String × List String)) (key : String)
    (value : List String) (h : table.lookup key = some value) : (key, value) ∈ table := by
  obtain ⟨l₁, l₂, rfl, _⟩ := List.lookup_eq_some_iff.1 h
  simp

theorem lookup_isSome_of_mem_keys (table : List (String × List String)) (key : String)
    (h : key ∈ table.map Prod.fst) : ∃ value, table.lookup key = some value := by
  have : (table.lookup key).isSome := by
    rw [List.lookup_isSome_iff]
    obtain ⟨p, hp, rfl⟩ := List.mem_map.1 h
    exact ⟨p, hp, by simp⟩
  exact Option.isSome_iff_exists.1 this

theorem tzLoop_of_table_entry :
    ∀ entry ∈ timezoneLanguages, entry.1 ≠ "Asia/Kolkata" →
      ∀ lang ∈ entry.2, tzLoop entry.1 lang tzToLang = true := by
  decide

/-- C14, amended: `checkPlatformUA` gives the verdict of rule
`Platform-UserAgent` unless the platform contains `linux` and the user agent
contains `android` and not `linux`, and it is consistent whenever the rule
passes; `checkWebGLPlatform` is consistent whenever rule `WebGL-Platform`
passes; `checkTimezoneLanguage` is consistent whenever rule
`Language-Timezone` passes on a timezone of its table other than
`Asia/Kolkata`. -/
theorem rules_imply_pairwise_predicates :
    (∀ (profile : Profile) (nav : Navigator) (platform ua : String),
      profile.navigator = some nav → nav.platform = some platform →
      nav.userAgent = some ua →
      ((includes (toLowerCase platform) "linux" && includes (toLowerCase ua) "android" &&
          !includes (toLowerCase ua) "linux") = false →
        checkPlatformUserAgentRule profile = .ok (checkPlatformUA platform ua)) ∧
      (checkPlatformUserAgentRule profile = .ok true → checkPlatformUA platform ua = true)) ∧
    (∀ (profile : Profile) (nav : Navigator) (webgl : WebGL) (platform renderer : String),
      profile.navigator = some nav → nav.platform = some platform →
      profile.webgl = some webgl → webgl.renderer = some renderer →
      checkWebGLPlatformRule profile = .ok true →
      checkWebGLPlatform renderer platform = true) ∧
    (∀ (profile : Profile) (nav : Navigator) (tz : Timezone) (timezone language : String),
      profile.navigator = some nav → nav.language = some language →
      profile.timezone = some tz → tz.name = some timezone →
      timezone ∈ timezoneLanguages.map Prod.fst → timezone ≠ "Asia/Kolkata" →
      checkLanguageTimezoneRule profile = .ok true →
      checkTimezoneLanguage timezone language = true) := by
  refine ⟨?_, ?_, ?_⟩
  · intro profile nav platform ua hnav hpl hua
    simp only [checkPlatformUserAgentRule, platformLower, userAgentLower, readThrough, hnav,
      hpl, hua, bind, Except.bind, pure, Except.pure, checkPlatformUA]
    cases includes (toLowerCase platform) "win" <;>
    cases includes (toLowerCase platform) "mac" <;>
    cases includes (toLowerCase platform) "linux" <;>
    cases includes (toLowerCase ua) "windows" <;>
    cases includes (toLowerCase ua) "mac" <;>
    cases includes (toLowerCase ua) "linux" <;>
    cases includes (toLowerCase ua) "android" <;> simp
  · intro profile nav webgl platform renderer hnav hpl hgl hr hpass
    rw [checkWebGLPlatformRule_eq profile nav webgl platform renderer hnav hpl hgl hr] at hpass
    have himp : implausibleRenderer platform renderer = false := by
      cases h : implausibleRenderer platform renderer
      · rfl
      · rw [h] at hpass; exact absurd hpass (by decide)
    revert himp
    simp only [implausibleRenderer, checkWebGLPlatform]
    cases includes (toLowerCase platform) "win" <;>
    cases includes (toLowerCase platform) "mac" <;>
    cases includes (toLowerCase platform) "linux" <;>
    cases includes (toLowerCase renderer) "apple" <;>
    cases includes (toLowerCase renderer) "direct3d" <;>
    cases includes (toLowerCase renderer) "d3d" <;>
    cases includes (toLowerCase renderer) "nvidia" <;>
    cases includes (toLowerCase renderer) "amd" <;>
    cases includes (toLowerCase renderer) "intel" <;> simp
  · intro profile nav tz timezone language hnav hlang htz hname hmem hne hpass
    obtain ⟨langs, hl⟩ := lookup_isSome_of_mem_keys timezoneLanguages timezone hmem
    simp only [checkLanguageTimezoneRule, readThrough, hnav, hlang, htz, hname, hl, bind,
      Except.bind, pure, Except.pure] at hpass
    have hin : splitHyphenFirst language ∈ langs := by
      by_contra hc
      simp [hc] at hpass
    exact tzLoop_of_table_entry (timezone, langs)
      (mem_of_lookup_eq_some _ _ _ hl) hne _ hin

/-- Witness of C14: `windowsDesktop` passes the three rules and its values pass
the three predicates. -/
theorem rules_imply_pairwise_predicates_witness :
    checkPlatformUA "Win32"
        "Mozilla/5.0 (Windows NT 10.0; Win64; x64) AppleWebKit/537.36 Chrome/120.0.0.0 Safari/537.36" =
      true ∧
    checkWebGLPlatform
        "ANGLE (NVIDIA, NVIDIA GeForce GTX 1060 Direct3D11 vs_5_0 ps_5_0, D3D11)" "Win32" =
      true ∧
    checkTimezoneLanguage "America/New_York" "en-US" = true :=
  ⟨(rules_imply_pairwise_predicates.1 windowsDesktop _ _ _ rfl rfl rfl).2 (by decide),
    rules_imply_pairwise_predicates.2.1 windowsDesktop _ _ _ _ rfl rfl rfl rfl (by decide),
    rules_imply_pairwise_predicates.2.2 windowsDesktop _ _ _ _ rfl rfl rfl rfl
      (by decide) (by decide) (by decide)⟩

/-! ## The seed generator -/

set_option maxRecDepth 100000 in
theorem byteToHex_data :
    ∀ b : Fin 256,
      (byteToHex b).data = [Nat.digitChar (b.val / 16), Nat.digitChar (b.val % 16)] := by
  decide

theorem digitChar_hex : ∀ n : Fin 16, Nat.digitChar n.val ∈ "0123456789abcdef".data := by
  decide

theorem hexChars_cons (b : Fin 256) (bs : List (Fin 256)) :
    (joinStrings ((b :: bs).map byteToHex)).data =
      Nat.digitChar (b.val / 16) :: Nat.digitChar (b.val % 16) ::
        (joinStrings (bs.map byteToHex)).data := by
  simp [joinStrings, byteToHex_data]

theorem hexChars_length (l : List (Fin 256)) :
    (joinStrings (l.map byteToHex)).data.length = 2 * l.length := by
  induction l with
  | nil => simp [joinStrings]
  | cons b bs ih => rw [hexChars_cons]; simp [ih]; omega

theorem hexChars_mem (l : List (Fin 256)) :
    ∀ c ∈ (joinStrings (l.map byteToHex)).data, c ∈ "0123456789abcdef".data := by
  induction l with
  | nil => simp [joinStrings]
  | cons b bs ih =>
    rw [hexChars_cons]
    intro c hc
    simp only [List.mem_cons] at hc
    rcases hc with rfl | rfl | hc
    · exact digitChar_hex ⟨b.val / 16, by omega⟩
    · exact digitChar_hex ⟨b.val % 16, by omega⟩
    · exact ih c hc

theorem hexChars_getElem (l : List (Fin 256)) (i : Nat) (h : i < l.length) :
    (joinStrings (l.map byteToHex)).data[2 * i]? =
        some (Nat.digitChar ((l.get ⟨i, h⟩).val / 16)) ∧
    (joinStrings (l.map byteToHex)).data[2 * i + 1]? =
        some (Nat.digitChar ((l.get ⟨i, h⟩).val % 16)) := by
  induction l generalizing i with
  | nil => simp at h
  | cons b bs ih =>
    rw [hexChars_cons]
    cases i with
    | zero => simp
    | succ j =>
      have hj : j < bs.length := by simpa using h
      have e1 : 2 * (j + 1) = 2 * j + 1 + 1 := by omega
      rw [e1]
      simp only [List.getElem?_cons_succ, List.get_cons_succ]
      exact ih j hj

/-- C15: for every array of 32 bytes, `generateSessionSeed` returns a string of
exactly 64 characters, each one of `0123456789abcdef`, in which characters
`2i` and `2i+1` are the high and the low hexadecimal digit of byte `i`, that
is, its two-digit zero-padded lower-case hexadecimal form. -/
theorem generateSessionSeed_hex (array : Fin 32 → Fin 256) :
    (generateSessionSeed array).length = 64 ∧
    (∀ c ∈ (generateSessionSeed array).data, c ∈ "0123456789abcdef".data) ∧
    ∀ i : Fin 32,
      (generateSessionSeed array).data[2 * i.val]? =
          some (Nat.digitChar ((array i).val / 16)) ∧
      (generateSessionSeed array).data[2 * i.val + 1]? =
          some (Nat.digitChar ((array i).val % 16)) := by
  refine ⟨?_, ?_, ?_⟩
  · show (joinStrings ((List.ofFn array).map byteToHex)).data.length = 64
    rw [hexChars_length, List.length_ofFn]
  · exact hexChars_mem _
  · intro i
    have hlt : i.val < (List.ofFn array).length := by rw [List.length_ofFn]; exact i.isLt
    have e : (List.ofFn array).get ⟨i.val, hlt⟩ = array i := by
      rw [List.get_ofFn]; rfl
    have h := hexChars_getElem (List.ofFn array) i.val hlt
    rw [e] at h
    exact h

theorem generateSessionSeed_ne_empty (array : Fin 32 → Fin 256) :
    generateSessionSeed array ≠ "" := by
  intro h
  have h64 : (generateSessionSeed array).length = 64 := by
    show (joinStrings ((List.ofFn array).map byteToHex)).data.length = 64
    rw [hexChars_length, List.length_ofFn]
  rw [h] at h64
  exact absurd h64 (by decide)

theorem truthy_generateSessionSeed (array : Fin 32 → Fin 256) :
    truthy (some (generateSessionSeed array)) = true := by
  simp [truthy, generateSessionSeed_ne_empty]

/-! ## Lemmas on the session loops -/

theorem truthy_iff (v : Option String) : truthy v = true ↔ ∃ s, v = some s ∧ s ≠ "" := by
  cases v with
  | none => simp [truthy]
  | some s => simp [truthy]

theorem initializeAttempt_get_fails (env : Env) (w : World)
    (h : env.storageFails w.storageOps = true) :
    initializeAttempt env w =
      .error { w with seedsGenerated := w.seedsGenerated + 1, clockReads := w.clockReads + 1,
                      storageOps := w.storageOps + 1 } := by
  simp [initializeAttempt, nextSeed, dateNow, storageGet, h]

theorem initializeAttempt_set_fails (env : Env) (w : World)
    (h1 : env.storageFails w.storageOps = false)
    (h2 : env.storageFails (w.storageOps + 1) = true) :
    initializeAttempt env w =
      .error { w with seedsGenerated := w.seedsGenerated + 1, clockReads := w.clockReads + 1,
                      storageOps := w.storageOps + 1 + 1 } := by
  simp [initializeAttempt, nextSeed, dateNow, storageGet, storageSetSession, h1, h2]

theorem initializeAttempt_ok (env : Env) (w : World)
    (h1 : env.storageFails w.storageOps = false)
    (h2 : env.storageFails (w.storageOps + 1) = false) :
    initializeAttempt env w =
      .ok { w with
            seedsGenerated := w.seedsGenerated + 1, clockReads := w.clockReads + 1,
            storageOps := w.storageOps + 1 + 1,
            storage :=
              { w.storage with
                sessionSeed := some (generateSessionSeed (env.randomBytes w.seedsGenerated)),
                sessionStartTime := some (env.now w.clockReads), profile := none },
            sessionData :=
              { w.sessionData with
                seed := some (generateSessionSeed (env.randomBytes w.seedsGenerated)),
                sessionStartTime := some (env.now w.clockReads), initialized := true,
                profile := none } } := by
  simp [initializeAttempt, nextSeed, dateNow, storageGet, storageSetSession, h1, h2,
    clearTargetSiteData]

theorem initializeAttempt_ok_usable (env : Env) (w w1 : World)
    (h : initializeAttempt env w = .ok w1) :
    w1.sessionData.initialized = true ∧ truthy w1.sessionData.seed = true ∧
      w1.sessionData.profile = none := by
  cases h1 : env.storageFails w.storageOps
  · cases h2 : env.storageFails (w.storageOps + 1)
    · rw [initializeAttempt_ok env w h1 h2] at h
      cases h
      exact ⟨rfl, truthy_generateSessionSeed _, rfl⟩
    · rw [initializeAttempt_set_fails env w h1 h2] at h
      cases h
  · rw [initializeAttempt_get_fails env w h1] at h
    cases h

theorem initializeCatch_last_usable (env : Env) (retries : Nat) (w : World) :
    (initializeCatch env retries (retries - 1) w).sessionData.initialized = true ∧
      truthy (initializeCatch env retries (retries - 1) w).sessionData.seed = true := by
  simp [initializeCatch, nextSeed, dateNow, truthy_generateSessionSeed]

theorem initializeSessionLoop_usable (env : Env) (retries : Nat) :
    ∀ (remaining : Nat) (w : World), 1 ≤ remaining → remaining ≤ retries →
      (initializeSessionLoop env retries remaining w).sessionData.initialized = true ∧
        truthy (initializeSessionLoop env retries remaining w).sessionData.seed = true := by
  intro remaining
  induction remaining with
  | zero => intro w h; omega
  | succ n ih =>
    intro w _ hle
    rw [initializeSessionLoop]
    cases hatt : initializeAttempt env w with
    | ok w1 =>
      have := initializeAttempt_ok_usable env w w1 hatt
      exact ⟨this.1, this.2.1⟩
    | error w1 =>
      simp only []
      cases n with
      | zero =>
        simp only [initializeSessionLoop]
        have e : retries - (0 + 1) = retries - 1 := rfl
        rw [e]
        exact initializeCatch_last_usable env retries w1
      | succ m =>
        exact ih _ (by omega) (by omega)

theorem initializeSession_usable (env : Env) (retries : Nat) (w : World) (h : 1 ≤ retries) :
    (initializeSession env retries w).sessionData.initialized = true ∧
      truthy (initializeSession env retries w).sessionData.seed = true :=
  initializeSessionLoop_usable env retries retries w h (Nat.le_refl _)

theorem restoreAttempt_get_fails (env : Env) (w : World)
    (h : env.storageFails w.storageOps = true) :
    restoreAttempt env w = .error { w with storageOps := w.storageOps + 1 } := by
  simp [restoreAttempt, storageGet, h]

theorem restoreAttempt_second_get_fails (env : Env) (w : World)
    (h1 : env.storageFails w.storageOps = false)
    (h2 : env.storageFails (w.storageOps + 1) = true) :
    restoreAttempt env w = .error { w with storageOps := w.storageOps + 1 + 1 } := by
  simp [restoreAttempt, storageGet, h1, h2]

theorem restoreAttempt_restores (env : Env) (w : World)
    (h1 : env.storageFails w.storageOps = false)
    (h2 : env.storageFails (w.storageOps + 1) = false)
    (hs : truthy w.storage.sessionSeed = true) :
    restoreAttempt env w =
      .ok { w with
            storageOps := w.storageOps + 1 + 1,
            sessionData :=
              { w.sessionData with
                seed := w.storage.sessionSeed,
                sessionStartTime := w.storage.sessionStartTime,
                profile := w.storage.profile, initialized := true } } := by
  simp [restoreAttempt, storageGet, h1, h2, hs]

theorem restoreAttempt_initializes (env : Env) (w : World)
    (h1 : env.storageFails w.storageOps = false)
    (h2 : env.storageFails (w.storageOps + 1) = false)
    (hs : truthy w.storage.sessionSeed = false) :
    restoreAttempt env w =
      .ok (initializeSession env 3 { w with storageOps := w.storageOps + 1 + 1 }) := by
  simp [restoreAttempt, storageGet, h1, h2, hs]

theorem restoreAttempt_ok_usable (env : Env) (w w1 : World)
    (h : restoreAttempt env w = .ok w1) :
    w1.sessionData.initialized = true ∧ truthy w1.sessionData.seed = true := by
  cases h1 : env.storageFails w.storageOps
  · cases h2 : env.storageFails (w.storageOps + 1)
    · cases hs : truthy w.storage.sessionSeed
      · rw [restoreAttempt_initializes env w h1 h2 hs] at h
        cases h
        exact initializeSession_usable env 3 _ (by decide)
      · rw [restoreAttempt_restores env w h1 h2 hs] at h
        cases h
        exact ⟨rfl, hs⟩
    · rw [restoreAttempt_second_get_fails env w h1 h2] at h
      cases h
  · rw [restoreAttempt_get_fails env w h1] at h
    cases h

theorem restoreSessionLoop_usable (env : Env) (retries : Nat) :
    ∀ (remaining : Nat) (w : World), 1 ≤ remaining → remaining ≤ retries →
      (restoreSessionLoop env retries remaining w).sessionData.initialized = true ∧
        truthy (restoreSessionLoop env retries remaining w).sessionData.seed = true := by
  intro remaining
  induction remaining with
  | zero => intro w h; omega
  | succ n ih =>
    intro w _ hle
    rw [restoreSessionLoop]
    cases hatt : restoreAttempt env w with
    | ok w1 => exact restoreAttempt_ok_usable env w w1 hatt
    | error w1 =>
      simp only []
      cases n with
      | zero =>
        have hnot : ¬ (retries - (0 + 1) < retries - 1) := by omega
        simp only [restoreSessionLoop, restoreCatch, if_neg hnot]
        exact initializeSession_usable env 3 _ (by decide)
      | succ m =>
        exact ih _ (by omega) (by omega)

theorem restoreSessionLoop_restores (env : Env) (retries : Nat) :
    ∀ (remaining : Nat) (w : World), remaining ≤ retries →
      truthy w.storage.sessionSeed = true →
      readSucceedsWithin env.storageFails w.storageOps remaining = true →
      (restoreSessionLoop env retries remaining w).sessionData.initialized = true ∧
      (restoreSessionLoop env retries remaining w).sessionData.seed = w.storage.sessionSeed ∧
      (restoreSessionLoop env retries remaining w).sessionData.sessionStartTime =
        w.storage.sessionStartTime ∧
      (restoreSessionLoop env retries remaining w).sessionData.profile = w.storage.profile ∧
      (restoreSessionLoop env retries remaining w).seedsGenerated = w.seedsGenerated ∧
      (restoreSessionLoop env retries remaining w).storage = w.storage := by
  intro remaining
  induction remaining with
  | zero => intro w _ _ h; simp [readSucceedsWithin] at h
  | succ n ih =>
    intro w hle hs hread
    rw [restoreSessionLoop]
    rw [readSucceedsWithin] at hread
    cases h1 : env.storageFails w.storageOps
    · cases h2 : env.storageFails (w.storageOps + 1)
      · rw [restoreAttempt_restores env w h1 h2 hs]
        exact ⟨rfl, rfl, rfl, rfl, rfl, rfl⟩
      · rw [restoreAttempt_second_get_fails env w h1 h2]
        simp only [h1, h2, if_true, Bool.false_eq_true, if_false] at hread
        have hn : 1 ≤ n := by
          cases n with
          | zero => simp [readSucceedsWithin] at hread
          | succ m => omega
        have hlt : retries - (n + 1) < retries - 1 := by omega
        simp only [restoreCatch, if_pos hlt]
        exact ih (sleep _ { w with storageOps := w.storageOps + 1 + 1 }) (by omega) hs hread
    · rw [restoreAttempt_get_fails env w h1]
      simp only [h1, if_true] at hread
      have hn : 1 ≤ n := by
        cases n with
        | zero => simp [readSucceedsWithin] at hread
        | succ m => omega
      have hlt : retries - (n + 1) < retries - 1 := by omega
      simp only [restoreCatch, if_pos hlt]
      exact ih (sleep _ { w with storageOps := w.storageOps + 1 }) (by omega) hs hread

theorem initializeSessionLoop_all_fail (env : Env) (retries : Nat) :
    ∀ (remaining : Nat) (w : World), 1 ≤ remaining → remaining ≤ retries →
      everyPersistFails env.storageFails w.storageOps remaining = true →
      (initializeSessionLoop env retries remaining w).sessionData.initialized = true ∧
      (initializeSessionLoop env retries remaining w).sessionData.seed =
        some (generateSessionSeed (env.randomBytes (w.seedsGenerated + remaining))) ∧
      (initializeSessionLoop env retries remaining w).sessionData.profile =
        w.sessionData.profile ∧
      (initializeSessionLoop env retries remaining w).seedsGenerated =
        w.seedsGenerated + remaining + 1 ∧
      (initializeSessionLoop env retries remaining w).storage = w.storage := by
  intro remaining
  induction remaining with
  | zero => intro w h; omega
  | succ n ih =>
    intro w _ hle hall
    rw [initializeSessionLoop]
    rw [everyPersistFails] at hall
    have step : ∀ w1 : World, w1.seedsGenerated = w.seedsGenerated + 1 →
        w1.storage = w.storage → w1.sessionData = w.sessionData →
        everyPersistFails env.storageFails w1.storageOps n = true →
        (initializeSessionLoop env retries n
            (initializeCatch env retries (retries - (n + 1)) w1)).sessionData.initialized =
          true ∧
        (initializeSessionLoop env retries n
            (initializeCatch env retries (retries - (n + 1)) w1)).sessionData.seed =
          some (generateSessionSeed (env.randomBytes (w.seedsGenerated + (n + 1)))) ∧
        (initializeSessionLoop env retries n
            (initializeCatch env retries (retries - (n + 1)) w1)).sessionData.profile =
          w.sessionData.profile ∧
        (initializeSessionLoop env retries n
            (initializeCatch env retries (retries - (n + 1)) w1)).seedsGenerated =
          w.seedsGenerated + (n + 1) + 1 ∧
        (initializeSessionLoop env retries n
            (initializeCatch env retries (retries - (n + 1)) w1)).storage = w.storage := by
      intro w1 hg hst hsd hrest
      cases n with
      | zero =>
        have e : retries - (0 + 1) = retries - 1 := rfl
        simp only [initializeSessionLoop, initializeCatch, e, if_true, nextSeed, dateNow, hg,
          hst, hsd]
        exact ⟨trivial, trivial, trivial, trivial, trivial⟩
      | succ m =>
        have hne : ¬ (retries - (m + 1 + 1) = retries - 1) := by omega
        simp only [initializeCatch, if_neg hne]
        obtain ⟨a, b, c, d, e⟩ :=
          ih (sleep (500 * (retries - (m + 1 + 1) + 1)) w1) (by omega) (by omega) hrest
        have g1 : (sleep (500 * (retries - (m + 1 + 1) + 1)) w1).seedsGenerated =
            w.seedsGenerated + 1 := hg
        have g2 : (sleep (500 * (retries - (m + 1 + 1) + 1)) w1).sessionData =
            w.sessionData := hsd
        rw [g1] at b d
        rw [g2] at c
        refine ⟨a, ?_, c, ?_, e.trans hst⟩
        · have e1 : w.seedsGenerated + 1 + (m + 1) = w.seedsGenerated + (m + 1 + 1) := by
            omega
          rw [b, e1]
        · rw [d]; omega
    cases h1 : env.storageFails w.storageOps
    · simp only [h1, Bool.false_eq_true, if_false, Bool.and_eq_true] at hall
      rw [initializeAttempt_set_fails env w h1 hall.1]
      exact step _ rfl rfl rfl hall.2
    · simp only [h1, if_true] at hall
      rw [initializeAttempt_get_fails env w h1]
      exact step _ rfl rfl rfl hall

/-- C16: for every store holding a non-empty `sessionSeed` and every attempt
budget within which one attempt gets both its reads through, `restoreSession`
ends with `initialized = true`, the stored seed, start time and profile in
`sessionData`, no seed generated and the store as it was. -/
theorem restoreSession_restores (env : Env) (retries : Nat) (w : World) (s : String)
    (hseed : w.storage.sessionSeed = some s) (hne : s ≠ "")
    (hread : readSucceedsWithin env.storageFails w.storageOps retries = true) :
    (restoreSession env retries w).sessionData.initialized = true ∧
    (restoreSession env retries w).sessionData.seed = some s ∧
    (restoreSession env retries w).sessionData.sessionStartTime =
      w.storage.sessionStartTime ∧
    (restoreSession env retries w).sessionData.profile = w.storage.profile ∧
    (restoreSession env retries w).seedsGenerated = w.seedsGenerated ∧
    (restoreSession env retries w).storage = w.storage := by
  have hs : truthy w.storage.sessionSeed = true := (truthy_iff _).2 ⟨s, hseed, hne⟩
  have h := restoreSessionLoop_restores env retries retries w (Nat.le_refl _) hs hread
  rw [hseed] at h
  exact h

/-- Witness of C16: the store holds seed `abc` and no profile, the first read
rejects and the second attempt succeeds. -/
theorem restoreSession_restores_witness :
    (restoreSession flakyEnv 3 storedWorld).sessionData.initialized = true ∧
    (restoreSession flakyEnv 3 storedWorld).sessionData.seed = some "abc" ∧
    (restoreSession flakyEnv 3 storedWorld).sessionData.sessionStartTime = some 500 ∧
    (restoreSession flakyEnv 3 storedWorld).sessionData.profile = none ∧
    (restoreSession flakyEnv 3 storedWorld).seedsGenerated = 0 ∧
    (restoreSession flakyEnv 3 storedWorld).storage = storedWorld.storage :=
  restoreSession_restores flakyEnv 3 storedWorld "abc" rfl (by decide) (by decide)

/-- C17: for every attempt budget of at least 1 and every pattern of storage
failures, `restoreSession` returns with `initialized = true` and a non-empty
seed in `sessionData`. -/
theorem restoreSession_usable (env : Env) (retries : Nat) (w : World) (h : 1 ≤ retries) :
    (restoreSession env retries w).sessionData.initialized = true ∧
    ∃ s, (restoreSession env retries w).sessionData.seed = some s ∧ s ≠ "" := by
  have := restoreSessionLoop_usable env retries retries w h (Nat.le_refl _)
  exact ⟨this.1, (truthy_iff _).1 this.2⟩

/-- Witness of C17: with every storage operation rejecting and an empty
memory, `restoreSession(3)` ends on the fallback seed of `initializeSession`. -/
theorem restoreSession_usable_witness :
    (restoreSession failingEnv 3 World.initial).sessionData.initialized = true ∧
    ∃ s, (restoreSession failingEnv 3 World.initial).sessionData.seed = some s ∧ s ≠ "" :=
  restoreSession_usable failingEnv 3 World.initial (by decide)

/-- C18 (defect of the code): in `staleWorld` the session holds a profile;
when every storage operation rejects, `initializeSession(3)` ends on the
fallback branch with a new seed and the old profile still in `sessionData`. -/
theorem initializeSession_fallback_keeps_profile :
    (initializeSession failingEnv 3 staleWorld).sessionData.profile = some windowsDesktop ∧
    (initializeSession failingEnv 3 staleWorld).sessionData.seed =
      some "0000000000000000000000000000000000000000000000000000000000000000" ∧
    staleWorld.sessionData.seed = some "abc" := by
  decide

/-- C19: for every attempt budget of at least 1, if every persistence attempt
of `initializeSession` fails, it returns with `initialized = true`, the seed
in `sessionData` is the one generated last in this call (non-empty), and the
store is as it was. -/
theorem initializeSession_all_fail (env : Env) (retries : Nat) (w : World) (h : 1 ≤ retries)
    (hall : everyPersistFails env.storageFails w.storageOps retries = true) :
    (initializeSession env retries w).sessionData.initialized = true ∧
    (initializeSession env retries w).sessionData.seed =
      some (generateSessionSeed (env.randomBytes (w.seedsGenerated + retries))) ∧
    generateSessionSeed (env.randomBytes (w.seedsGenerated + retries)) ≠ "" ∧
    (initializeSession env retries w).seedsGenerated = w.seedsGenerated + retries + 1 ∧
    (initializeSession env retries w).storage = w.storage := by
  obtain ⟨a, b, _, d, e⟩ :=
    initializeSessionLoop_all_fail env retries retries w h (Nat.le_refl _) hall
  exact ⟨a, b, generateSessionSeed_ne_empty _, d, e⟩

/-- Witness of C19: three failing attempts from the initial world. -/
theorem initializeSession_all_fail_witness :
    (initializeSession failingEnv 3 World.initial).sessionData.initialized = true ∧
    (initializeSession failingEnv 3 World.initial).sessionData.seed =
      some (generateSessionSeed (failingEnv.randomBytes (0 + 3))) ∧
    generateSessionSeed (failingEnv.randomBytes (0 + 3)) ≠ "" ∧
    (initializeSession failingEnv 3 World.initial).seedsGenerated = 0 + 3 + 1 ∧
    (initializeSession failingEnv 3 World.initial).storage = StoredData.empty :=
  initializeSession_all_fail failingEnv 3 World.initial (by decide) (by decide)

/-- C20: for every `sessionData` and every storage behaviour,
`handleGetSessionSeed` returns a response whose seed is a non-empty string and
is the seed held in `sessionData` after the call. -/
theorem handleGetSessionSeed_seed (env : Env) (w : World) :
    ∃ s, (handleGetSessionSeed env w).1.seed = some s ∧ s ≠ "" ∧
      (handleGetSessionSeed env w).2.sessionData.seed = some s := by
  let w1 :=
    if (!w.sessionData.initialized || !truthy w.sessionData.seed) = true then
      initializeSession env 3 w
    else w
  have hu1 : truthy w1.sessionData.seed = true := by
    by_cases hc : (!w.sessionData.initialized || !truthy w.sessionData.seed) = true
    · simp only [w1, if_pos hc]
      exact (initializeSession_usable env 3 w (by decide)).2
    · simp only [w1, if_neg hc]
      cases ht : truthy w.sessionData.seed
      · simp [ht] at hc
      · rfl
  have hres : handleGetSessionSeed env w = ({ seed := w1.sessionData.seed }, w1) := by
    show (if truthy w1.sessionData.seed = true then _ else _) = _
    rw [if_pos hu1]
  rw [hres]
  obtain ⟨s, hs, hne⟩ := (truthy_iff _).1 hu1
  exact ⟨s, hs, hne, hs⟩

/-! ## The partition of the rules by a report -/

theorem outcome_counts (profile : Profile) (rules : List Rule) :
    rules.countP (passes profile) + rules.countP (fails profile) +
      (rules.filterMap (warningOf profile)).length = rules.length := by
  induction rules with
  | nil => simp
  | cons r rs ih =>
    rcases hc : r.check profile with msg | b
    · have h1 : passes profile r = false := by simp [passes, hc]
      have h2 : fails profile r = false := by simp [fails, hc]
      have h3 : warningOf profile r = some { rule := r.name, error := msg } := by
        simp [warningOf, hc]
      simp only [List.countP_cons, List.filterMap_cons, h1, h2, h3, List.length_cons]
      simp only [Bool.false_eq_true, if_false]
      omega
    · have h3 : warningOf profile r = none := by simp [warningOf, hc]
      cases b
      · have h1 : passes profile r = false := by simp [passes, hc]
        have h2 : fails profile r = true := by simp [fails, hc]
        simp only [List.countP_cons, List.filterMap_cons, h1, h2, h3, List.length_cons]
        simp only [Bool.false_eq_true, if_false, if_true]
        omega
      · have h1 : passes profile r = true := by simp [passes, hc]
        have h2 : fails profile r = false := by simp [fails, hc]
        simp only [List.countP_cons, List.filterMap_cons, h1, h2, h3, List.length_cons]
        simp only [Bool.false_eq_true, if_false, if_true]
        omega

/-- C29: for every rule list and every profile, the report of `checkProfile`
partitions the rules: `passed + failed +` the number of warnings is the number
of rules (10 for the default set), `failed` is the length of `issues`, and
`criticalIssues` is the number of issues of severity critical. -/
theorem checkProfile_partition (this : ConsistencyChecker) (profile : Profile) :
    (this.checkProfile profile).passed + (this.checkProfile profile).failed +
        (this.checkProfile profile).warnings.length = this.rules.length ∧
    (ConsistencyChecker.new.checkProfile profile).passed +
        (ConsistencyChecker.new.checkProfile profile).failed +
        (ConsistencyChecker.new.checkProfile profile).warnings.length = 10 ∧
    (this.checkProfile profile).failed = (this.checkProfile profile).issues.length ∧
    (this.checkProfile profile).criticalIssues =
      (this.checkProfile profile).issues.countP (fun issue => issue.severity = "critical") := by
  have hgen : ∀ rules : List Rule,
      (runRules rules profile).passed + (runRules rules profile).failed +
        (runRules rules profile).warnings.length = rules.length := by
    intro rules
    simp only [runRules, foldl_checkRule_passed, foldl_checkRule_failed,
      foldl_checkRule_warnings, Results.initial, List.nil_append, Nat.zero_add]
    exact outcome_counts profile rules
  refine ⟨hgen this.rules, hgen initializeRules, ?_, ?_⟩
  · simp only [ConsistencyChecker.checkProfile, runRules, foldl_checkRule_failed,
      foldl_checkRule_issues, Results.initial, List.nil_append, Nat.zero_add,
      List.length_map, List.countP_eq_length_filter]
  · simp only [ConsistencyChecker.checkProfile, runRules, foldl_checkRule_criticalIssues,
      foldl_checkRule_issues, Results.initial, List.nil_append, Nat.zero_add,
      List.countP_map, List.countP_filter]
    congr 1
    funext r
    simp [issueOf, Bool.and_comm]

/-! ## The seed handler, call after call -/

theorem handleGetSessionSeed_of_usable (env : Env) (w : World)
    (hi : w.sessionData.initialized = true) (hs : truthy w.sessionData.seed = true) :
    handleGetSessionSeed env w = ({ seed := w.sessionData.seed }, w) := by
  simp [handleGetSessionSeed, hi, hs]

theorem handleGetSessionSeed_of_unusable (env : Env) (w : World)
    (h : w.sessionData.initialized = false ∨ truthy w.sessionData.seed = false) :
    handleGetSessionSeed env w =
      ({ seed := (initializeSession env 3 w).sessionData.seed }, initializeSession env 3 w) := by
  have hu := (initializeSession_usable env 3 w (by decide)).2
  have hc : (!w.sessionData.initialized || !truthy w.sessionData.seed) = true := by
    rcases h with h | h <;> simp [h]
  simp only [handleGetSessionSeed, hc, if_true, hu]

theorem handleGetSessionSeed_leaves_usable (env : Env) (w : World) :
    (handleGetSessionSeed env w).2.sessionData.initialized = true ∧
    truthy (handleGetSessionSeed env w).2.sessionData.seed = true ∧
    (handleGetSessionSeed env w).1.seed = (handleGetSessionSeed env w).2.sessionData.seed := by
  by_cases h : w.sessionData.initialized = true ∧ truthy w.sessionData.seed = true
  · rw [handleGetSessionSeed_of_usable env w h.1 h.2]
    exact ⟨h.1, h.2, rfl⟩
  · have h' : w.sessionData.initialized = false ∨ truthy w.sessionData.seed = false := by
      by_cases hi : w.sessionData.initialized = true
      · right
        cases ht : truthy w.sessionData.seed
        · rfl
        · exact absurd ⟨hi, ht⟩ h
      · left
        simpa using hi
    rw [handleGetSessionSeed_of_unusable env w h']
    have hu := initializeSession_usable env 3 w (by decide)
    exact ⟨hu.1, hu.2, rfl⟩

theorem handleGetSessionSeed_again (env : Env) (w : World) :
    handleGetSessionSeed env (handleGetSessionSeed env w).2 = handleGetSessionSeed env w := by
  obtain ⟨hi, hs, hr⟩ := handleGetSessionSeed_leaves_usable env w
  rw [handleGetSessionSeed_of_usable env _ hi hs]
  cases hres : handleGetSessionSeed env w with
  | mk r w1 =>
    rw [hres] at hr
    cases r
    simp_all

theorem everyPersistFails_of_always (fails : Nat → Bool) (h : ∀ k, fails k = true) :
    ∀ n k, everyPersistFails fails k n = true := by
  intro n
  induction n with
  | zero => intro k; rfl
  | succ m ih => intro k; simp [everyPersistFails, h, ih]

/-- C21: when every storage operation rejects, for every initial
`sessionData` the first `handleGetSessionSeed` call returns a non-empty seed,
and every later call returns the same response and leaves the world of the
first call as it is, so no further seed is generated.  If the state was not
initialized or had no seed, the seed of the first call is the one generated in
the fallback branch of `initializeSession`. -/
theorem getSessionSeed_no_churn (env : Env) (w : World)
    (hfail : ∀ k, env.storageFails k = true) :
    (∃ s, (handleGetSessionSeed env w).1.seed = some s ∧ s ≠ "") ∧
    (∀ n : Nat,
      handleGetSessionSeed env
          ((fun v => (handleGetSessionSeed env v).2)^[n] (handleGetSessionSeed env w).2) =
        handleGetSessionSeed env w) ∧
    (w.sessionData.initialized = false ∨ truthy w.sessionData.seed = false →
      (handleGetSessionSeed env w).1.seed =
          some (generateSessionSeed (env.randomBytes (w.seedsGenerated + 3))) ∧
      (handleGetSessionSeed env w).2.seedsGenerated = w.seedsGenerated + 3 + 1 ∧
      (handleGetSessionSeed env w).2.storage = w.storage) := by
  refine ⟨?_, ?_, ?_⟩
  · obtain ⟨_, hs, hr⟩ := handleGetSessionSeed_leaves_usable env w
    rw [hr]
    exact (truthy_iff _).1 hs
  · intro n
    have hfix : ∀ m : Nat,
        (fun v => (handleGetSessionSeed env v).2)^[m] (handleGetSessionSeed env w).2 =
          (handleGetSessionSeed env w).2 := by
      intro m
      induction m with
      | zero => rfl
      | succ k ih =>
        rw [Function.iterate_succ_apply', ih, handleGetSessionSeed_again]
    rw [hfix, handleGetSessionSeed_again]
  · intro h
    rw [handleGetSessionSeed_of_unusable env w h]
    obtain ⟨_, b, _, d, e⟩ :=
      initializeSessionLoop_all_fail env 3 3 w (by decide) (Nat.le_refl _)
        (everyPersistFails_of_always _ hfail 3 _)
    exact ⟨b, d, e⟩

/-- Witness of C21: from the initial world with every storage operation
rejecting, the first call and the third call return the same seed. -/
theorem getSessionSeed_no_churn_witness :
    handleGetSessionSeed failingEnv
        ((fun v => (handleGetSessionSeed failingEnv v).2)^[2]
          (handleGetSessionSeed failingEnv World.initial).2) =
      handleGetSessionSeed failingEnv World.initial :=
  (getSessionSeed_no_churn failingEnv World.initial (fun _ => rfl)).2.1 2

/-- C30: when `sessionData` is not initialized and the two storage calls of
the first attempt succeed, `handleGetSessionSeed` does not restore: it
generates a seed, writes it with a null profile to the store, adopts it and
returns it; a stored seed other than the new one is gone. -/
theorem getSessionSeed_uninitialized_overwrites (env : Env) (w : World)
    (hinit : w.sessionData.initialized = false)
    (h1 : env.storageFails w.storageOps = false)
    (h2 : env.storageFails (w.storageOps + 1) = false) :
    (handleGetSessionSeed env w).1.seed =
        some (generateSessionSeed (env.randomBytes w.seedsGenerated)) ∧
    (handleGetSessionSeed env w).2.sessionData.seed =
        some (generateSessionSeed (env.randomBytes w.seedsGenerated)) ∧
    (handleGetSessionSeed env w).2.sessionData.profile = none ∧
    (handleGetSessionSeed env w).2.storage.sessionSeed =
        some (generateSessionSeed (env.randomBytes w.seedsGenerated)) ∧
    (handleGetSessionSeed env w).2.storage.profile = none ∧
    (handleGetSessionSeed env w).2.seedsGenerated = w.seedsGenerated + 1 ∧
    (∀ s, w.storage.sessionSeed = some s →
      generateSessionSeed (env.randomBytes w.seedsGenerated) ≠ s →
      (handleGetSessionSeed env w).2.storage.sessionSeed ≠ some s) := by
  have hinitS : initializeSession env 3 w =
      { w with
        seedsGenerated := w.seedsGenerated + 1, clockReads := w.clockReads + 1,
        storageOps := w.storageOps + 1 + 1,
        storage :=
          { w.storage with
            sessionSeed := some (generateSessionSeed (env.randomBytes w.seedsGenerated)),
            sessionStartTime := some (env.now w.clockReads), profile := none },
        sessionData :=
          { w.sessionData with
            seed := some (generateSessionSeed (env.randomBytes w.seedsGenerated)),
            sessionStartTime := some (env.now w.clockReads), initialized := true,
            profile := none } } := by
    simp only [initializeSession, initializeSessionLoop, initializeAttempt_ok env w h1 h2]
  rw [handleGetSessionSeed_of_unusable env w (Or.inl hinit), hinitS]
  refine ⟨rfl, rfl, rfl, rfl, rfl, rfl, ?_⟩
  intro s _ hne heq
  exact hne (Option.some.inj heq)

/-- Witness of C30: after a restart the store holds seed `abc`; the call
returns the new seed of 64 zeros and the store holds it. -/
theorem getSessionSeed_uninitialized_overwrites_witness :
    (handleGetSessionSeed workingEnv storedWorld).1.seed =
        some (generateSessionSeed (workingEnv.randomBytes 0)) ∧
    (handleGetSessionSeed workingEnv storedWorld).2.storage.sessionSeed =
        some (generateSessionSeed (workingEnv.randomBytes 0)) ∧
    storedWorld.storage.sessionSeed = some "abc" :=
  ⟨(getSessionSeed_uninitialized_overwrites workingEnv storedWorld rfl rfl rfl).1,
    (getSessionSeed_uninitialized_overwrites workingEnv storedWorld rfl rfl rfl).2.2.2.1,
    rfl⟩

/-! ## The session information -/

theorem infoReadLoop_of_some_read (env : Env) (w : World)
    (h : env.storageFails w.storageOps = false ∨
      env.storageFails (w.storageOps + 1) = false ∨
      env.storageFails (w.storageOps + 2) = false) :
    (infoReadLoop env 3 w).1 = some w.storage ∧
    (infoReadLoop env 3 w).2.sessionData = w.sessionData ∧
    (infoReadLoop env 3 w).2.storage = w.storage := by
  cases h0 : env.storageFails w.storageOps <;>
  cases h1 : env.storageFails (w.storageOps + 1) <;>
  cases h2 : env.storageFails (w.storageOps + 2) <;>
  simp [infoReadLoop, storageGet, sleep, h0, h1, h2]
  simp [h0, h1, h2] at h

theorem infoReadLoop_of_no_read (env : Env) (w : World)
    (h0 : env.storageFails w.storageOps = true)
    (h1 : env.storageFails (w.storageOps + 1) = true)
    (h2 : env.storageFails (w.storageOps + 2) = true) :
    infoReadLoop env 3 w =
      (none, { w with storageOps := w.storageOps + 1 + 1 + 1,
                      sleeps := w.sleeps ++ [500] ++ [500] }) := by
  simp [infoReadLoop, storageGet, sleep, h0, h1, h2]

/-- C22, as stated, fails: in `newerInMemoryWorld` the profile in memory is
stamped 600 and the stored one 400; `getSessionInfo` keeps the profile in
memory cached, yet the profile it returns is the stored one. -/
theorem getSessionInfo_returns_older_stored_profile :
    (getSessionInfo workingEnv newerInMemoryWorld).1.profile = some touchDesktop ∧
    (getSessionInfo workingEnv newerInMemoryWorld).2.sessionData.profile =
      some windowsDesktop ∧
    newerInMemoryWorld.sessionData.profile = some windowsDesktop ∧
    touchDesktop ≠ windowsDesktop := by
  decide

/-- C22, amended: for every initialized `sessionData` holding a profile
stamped `tMem`, when one of the three reads succeeds and the store holds a
profile stamped `tStore`, `getSessionInfo` caches the stored profile and its
stamp only if `tStore` is strictly greater than `tMem` and leaves the cache
alone otherwise; the profile it returns is the stored one in both cases. -/
theorem getSessionInfo_profile (env : Env) (w : World) (pMem pStore : Profile)
    (tMem tStore : Nat) (hinit : w.sessionData.initialized = true)
    (hpm : w.sessionData.profile = some pMem)
    (htm : w.sessionData.profileTimestamp = some tMem)
    (hps : w.storage.profile = some pStore) (hts : w.storage.timestamp = some tStore)
    (hread : env.storageFails w.storageOps = false ∨
      env.storageFails (w.storageOps + 1) = false ∨
      env.storageFails (w.storageOps + 2) = false) :
    (getSessionInfo env w).1.profile = some pStore ∧
    (tMem < tStore →
      (getSessionInfo env w).2.sessionData.profile = some pStore ∧
      (getSessionInfo env w).2.sessionData.profileTimestamp = some tStore) ∧
    (¬ tMem < tStore → (getSessionInfo env w).2.sessionData = w.sessionData) := by
  obtain ⟨r1, r2, _⟩ := infoReadLoop_of_some_read env w hread
  have hcache : updateProfileCache (some w.storage) w.sessionData =
      if tMem < tStore then
        { w.sessionData with profile := some pStore, profileTimestamp := some tStore }
      else w.sessionData := by
    simp [updateProfileCache, hps, hts, hpm, htm, gtTime]
  have hsd : (getSessionInfo env w).2.sessionData =
      updateProfileCache (some w.storage) w.sessionData := by
    simp only [getSessionInfo, hinit, Bool.not_true, Bool.false_eq_true, if_false]
    rw [← r1, ← r2]
    simp only [buildSessionInfo, dateNow]
    split_ifs <;> rfl
  have hprof : (getSessionInfo env w).1.profile = some pStore := by
    simp only [getSessionInfo, hinit, Bool.not_true, Bool.false_eq_true, if_false]
    simp only [buildSessionInfo, r1, Option.getD_some, hps]
  refine ⟨hprof, ?_, ?_⟩
  · intro hlt
    rw [hsd, hcache, if_pos hlt]
    exact ⟨rfl, rfl⟩
  · intro hlt
    rw [hsd, hcache, if_neg hlt]

/-- Witness of C22: the stored profile of `staleWorld`, stamped 600, against
a profile in memory stamped 500. -/
theorem getSessionInfo_profile_witness :
    (getSessionInfo workingEnv
        { staleWorld with
          sessionData := { staleWorld.sessionData with profileTimestamp := some 500 } }).1.profile =
      some windowsDesktop :=
  (getSessionInfo_profile workingEnv
    { staleWorld with
      sessionData := { staleWorld.sessionData with profileTimestamp := some 500 } }
    windowsDesktop windowsDesktop 500 600 rfl rfl rfl rfl rfl (Or.inl rfl)).1

/-- C23: for every initialized `sessionData`, if the three store reads of
`getSessionInfo` reject, the call returns the seed and the profile held in
memory and leaves `sessionData` as it is. -/
theorem getSessionInfo_all_reads_fail (env : Env) (w : World)
    (hinit : w.sessionData.initialized = true)
    (h0 : env.storageFails w.storageOps = true)
    (h1 : env.storageFails (w.storageOps + 1) = true)
    (h2 : env.storageFails (w.storageOps + 2) = true) :
    (getSessionInfo env w).1.seed = w.sessionData.seed ∧
    (getSessionInfo env w).1.profile = w.sessionData.profile ∧
    (getSessionInfo env w).2.sessionData = w.sessionData ∧
    (getSessionInfo env w).2.storage = w.storage := by
  have hloop := infoReadLoop_of_no_read env w h0 h1 h2
  refine ⟨?_, ?_, ?_, ?_⟩
  · simp only [getSessionInfo, hinit, Bool.not_true, Bool.false_eq_true, if_false, hloop]
    simp [buildSessionInfo, updateProfileCache, StoredData.empty, truthy]
  · simp only [getSessionInfo, hinit, Bool.not_true, Bool.false_eq_true, if_false, hloop]
    simp [buildSessionInfo, updateProfileCache, StoredData.empty]
  · simp only [getSessionInfo, hinit, Bool.not_true, Bool.false_eq_true, if_false, hloop]
    simp only [buildSessionInfo, updateProfileCache, dateNow]
    split_ifs <;> rfl
  · simp only [getSessionInfo, hinit, Bool.not_true, Bool.false_eq_true, if_false, hloop]
    simp only [buildSessionInfo, updateProfileCache, dateNow]
    split_ifs <;> rfl

/-- Witness of C23: the running session of `staleWorld` with every storage
operation rejecting. -/
theorem getSessionInfo_all_reads_fail_witness :
    (getSessionInfo failingEnv staleWorld).1.seed = some "abc" ∧
    (getSessionInfo failingEnv staleWorld).1.profile = some windowsDesktop ∧
    (getSessionInfo failingEnv staleWorld).2.sessionData = staleWorld.sessionData ∧
    (getSessionInfo failingEnv staleWorld).2.storage = staleWorld.storage :=
  getSessionInfo_all_reads_fail failingEnv staleWorld rfl rfl rfl rfl

/-! ## Regeneration, the network check and the message listener -/

/-- C25: `handleRegenerateIdentity` always returns a response, and the
response is `{ success: false, error }` if and only if clearing the store or
enumerating the tabs raises; otherwise it is `{ success: true, message }`,
whatever happens to the persistence inside `initializeSession`. -/
theorem handleRegenerateIdentity_success (env : Env) (tabsQuery : Except String (List Tab))
    (w : World) :
    ((handleRegenerateIdentity env tabsQuery w).1.success = false ↔
      env.storageFails w.storageOps = true ∨ ∃ msg, tabsQuery = .error msg) ∧
    ((handleRegenerateIdentity env tabsQuery w).1.success = false →
      (handleRegenerateIdentity env tabsQuery w).1.message = none ∧
      ∃ msg, (handleRegenerateIdentity env tabsQuery w).1.error = some msg) ∧
    ((handleRegenerateIdentity env tabsQuery w).1.success = true →
      (handleRegenerateIdentity env tabsQuery w).1.message =
        some "Identity regenerated successfully" ∧
      (handleRegenerateIdentity env tabsQuery w).1.error = none) := by
  cases hc : env.storageFails w.storageOps <;> cases tabsQuery <;>
    simp [handleRegenerateIdentity, storageClear, hc]

/-- Witness of C25: the store is cleared, every later storage call rejects,
the tabs are listed: the response reports success. -/
theorem handleRegenerateIdentity_success_witness :
    (handleRegenerateIdentity
        { failingEnv with storageFails := fun k => decide (0 < k) } (.ok [])
        staleWorld).1.message = some "Identity regenerated successfully" ∧
    (handleRegenerateIdentity
        { failingEnv with storageFails := fun k => decide (0 < k) } (.ok [])
        staleWorld).1.error = none :=
  (handleRegenerateIdentity_success
    { failingEnv with storageFails := fun k => decide (0 < k) } (.ok []) staleWorld).2.2
    (by decide)

/-- C27: for every document of the network lookup, `checkVPNStatus` returns the
information with `isVPN` true if and only if the organization name is present
and, lower-cased, contains one of `vpn`, `proxy`, `hosting`, `cloud`,
`datacenter`; without an organization name `isVPN` is false. -/
theorem checkVPNStatus_isVPN (data : IpData) :
    ∃ i : VPNInfo, checkVPNStatus (.json data) = .info i ∧ i.org = data.org ∧
      (i.isVPN = true ↔
        ∃ org, data.org = some org ∧
          (includes (toLowerCase org) "vpn" = true ∨
            includes (toLowerCase org) "proxy" = true ∨
            includes (toLowerCase org) "hosting" = true ∨
            includes (toLowerCase org) "cloud" = true ∨
            includes (toLowerCase org) "datacenter" = true)) ∧
      (data.org = none → i.isVPN = false) := by
  refine ⟨_, rfl, rfl, ?_, ?_⟩
  · cases horg : data.org with
    | none => simp [vpnIndicators, horg]
    | some org => simp [vpnIndicators, horg]
  · intro horg
    simp [vpnIndicators, horg]

/-- C26, as stated, fails at the request `null`: line 203 reads
`request.action` before the `try`, so the listener raises and no response is
sent, although the action of such a request is none of the four. -/
theorem onMessage_raises_without_request :
    onMessage (serviceWorkerHandlers workingEnv (.ok []) .notOk) none (some ⟨none⟩)
      staleWorld = .error (typeError "action") ∧
    (onMessage (serviceWorkerHandlers workingEnv (.ok []) .notOk) none (some ⟨none⟩)
      staleWorld).toOption = none :=
  ⟨rfl, rfl⟩

/-- C26, amended: for every request other than `null` and `undefined` whose
action is none of `getSessionSeed`, `regenerateIdentity`, `getSessionInfo`,
`checkVPN`, the listener raises nothing, responds `{ error: 'Unknown action' }`
and leaves the world as it is; whenever the function called for an action
raises with a message, the listener responds `{ error: message }`; every such
request gets a response; and the listener raises exactly when the request or
the sender is `null` or `undefined`. -/
theorem onMessage_errors (h : Handlers) (w : World) (sender : Sender) :
    (∀ request : Request,
      request.action ≠ some "getSessionSeed" → request.action ≠ some "regenerateIdentity" →
      request.action ≠ some "getSessionInfo" → request.action ≠ some "checkVPN" →
      onMessage h (some request) (some sender) w = .ok (.error "Unknown action", w)) ∧
    (∀ msg w1, h.handleGetSessionSeed w = (.error msg, w1) →
      onMessage h (some ⟨some "getSessionSeed"⟩) (some sender) w = .ok (.error msg, w1)) ∧
    (∀ msg w1, h.handleRegenerateIdentity w = (.error msg, w1) →
      onMessage h (some ⟨some "regenerateIdentity"⟩) (some sender) w =
        .ok (.error msg, w1)) ∧
    (∀ msg w1, h.getSessionInfo w = (.error msg, w1) →
      onMessage h (some ⟨some "getSessionInfo"⟩) (some sender) w = .ok (.error msg, w1)) ∧
    (∀ msg w1, h.checkVPNStatus w = (.error msg, w1) →
      onMessage h (some ⟨some "checkVPN"⟩) (some sender) w = .ok (.error msg, w1)) ∧
    (∀ request : Request, ∃ response w1,
      onMessage h (some request) (some sender) w = .ok (response, w1)) ∧
    (∀ (request : Option Request) (s : Option Sender),
      (∃ e, onMessage h request s w = .error e) ↔ request = none ∨ s = none) := by
  refine ⟨?_, ?_, ?_, ?_, ?_, ?_, ?_⟩
  · intro request h1 h2 h3 h4
    simp [onMessage, onMessageAsync, dispatch, h1, h2, h3, h4]
  · intro msg w1 he
    simp [onMessage, onMessageAsync, dispatch, he, Except.map]
  · intro msg w1 he
    simp [onMessage, onMessageAsync, dispatch, he, Except.map]
  · intro msg w1 he
    simp [onMessage, onMessageAsync, dispatch, he, Except.map]
  · intro msg w1 he
    simp [onMessage, onMessageAsync, dispatch, he, Except.map]
  · intro request
    exact ⟨_, _, rfl⟩
  · intro request s
    cases request with
    | none => simp [onMessage]
    | some r =>
      cases s with
      | none => simp [onMessage]
      | some t => simp [onMessage]

/-- Witness of C26: the service worker answers the action `ping`, sent from
the popup, with `{ error: 'Unknown action' }` and keeps the world. -/
theorem onMessage_errors_witness :
    onMessage (serviceWorkerHandlers workingEnv (.ok []) .notOk) (some ⟨some "ping"⟩)
      (some ⟨none⟩) staleWorld = .ok (.error "Unknown action", staleWorld) :=
  (onMessage_errors (serviceWorkerHandlers workingEnv (.ok []) .notOk) staleWorld ⟨none⟩).1
    ⟨some "ping"⟩ (by decide) (by decide) (by decide) (by decide)

/-! ## The waits of the retry loops -/

theorem backoffWaits_cons (retries i : Nat) (h : i + 1 < retries) :
    backoffWaits retries i = 500 * (i + 1) :: backoffWaits retries (i + 1) := by
  unfold backoffWaits
  have e : retries - 1 - i = (retries - 1 - (i + 1)) + 1 := by omega
  rw [e, List.range_succ_eq_map, List.map_cons, List.map_map]
  congr 1
  apply List.map_congr_left
  intro j _
  simp only [Function.comp, Nat.succ_eq_add_one]
  congr 1
  omega

theorem backoffWaits_last (retries : Nat) : backoffWaits retries (retries - 1) = [] := by
  simp [backoffWaits]

theorem backoffWaits_sum (m : Nat) : (backoffWaits (m + 1) 0).sum = 250 * (m + 1) * m := by
  unfold backoffWaits
  simp only [Nat.add_sub_cancel, Nat.sub_zero, Nat.zero_add]
  induction m with
  | zero => simp
  | succ k ih =>
    rw [List.range_succ, List.map_append, List.sum_append, ih]
    simp only [List.map_cons, List.map_nil, List.sum_cons, List.sum_nil]
    ring

theorem initializeSessionLoop_all_fail_waits (env : Env) (retries : Nat) :
    ∀ (remaining : Nat) (w : World), 1 ≤ remaining → remaining ≤ retries →
      everyPersistFails env.storageFails w.storageOps remaining = true →
      (initializeSessionLoop env retries remaining w).sleeps =
        w.sleeps ++ backoffWaits retries (retries - remaining) ∧
      (initializeSessionLoop env retries remaining w).storageOps ≤
        w.storageOps + 2 * remaining := by
  intro remaining
  induction remaining with
  | zero => intro w h; omega
  | succ n ih =>
    intro w _ hle hall
    rw [initializeSessionLoop]
    rw [everyPersistFails] at hall
    have step : ∀ w1 : World, w1.sleeps = w.sleeps → w1.storageOps ≤ w.storageOps + 2 →
        everyPersistFails env.storageFails w1.storageOps n = true →
        (initializeSessionLoop env retries n
            (initializeCatch env retries (retries - (n + 1)) w1)).sleeps =
          w.sleeps ++ backoffWaits retries (retries - (n + 1)) ∧
        (initializeSessionLoop env retries n
            (initializeCatch env retries (retries - (n + 1)) w1)).storageOps ≤
          w.storageOps + 2 * (n + 1) := by
      intro w1 hsl hops hrest
      cases n with
      | zero =>
        have e : retries - (0 + 1) = retries - 1 := rfl
        simp only [initializeSessionLoop, initializeCatch, e, if_true, nextSeed, dateNow,
          backoffWaits_last, List.append_nil, hsl]
        exact ⟨trivial, by omega⟩
      | succ m =>
        have hne : ¬ (retries - (m + 1 + 1) = retries - 1) := by omega
        simp only [initializeCatch, if_neg hne]
        obtain ⟨a, b⟩ :=
          ih (sleep (500 * (retries - (m + 1 + 1) + 1)) w1) (by omega) (by omega) hrest
        have g1 : (sleep (500 * (retries - (m + 1 + 1) + 1)) w1).sleeps =
            w.sleeps ++ [500 * (retries - (m + 1 + 1) + 1)] := by
          simp [sleep, hsl]
        have g2 : (sleep (500 * (retries - (m + 1 + 1) + 1)) w1).storageOps =
            w1.storageOps := rfl
        have e2 : retries - (m + 1) = retries - (m + 1 + 1) + 1 := by omega
        rw [g1, e2] at a
        rw [g2] at b
        refine ⟨?_, by omega⟩
        rw [a, backoffWaits_cons retries (retries - (m + 1 + 1)) (by omega)]
        simp
    cases h1 : env.storageFails w.storageOps
    · simp only [h1, Bool.false_eq_true, if_false, Bool.and_eq_true] at hall
      rw [initializeAttempt_set_fails env w h1 hall.1]
      exact step _ rfl (by simp) hall.2
    · simp only [h1, if_true] at hall
      rw [initializeAttempt_get_fails env w h1]
      exact step _ rfl (by simp) hall

theorem restoreSessionLoop_all_fail (env : Env) (retries : Nat) :
    ∀ (remaining : Nat) (w : World), 1 ≤ remaining → remaining ≤ retries →
      everyRestoreFails env.storageFails w.storageOps remaining = true →
      ∃ w1 : World,
        restoreSessionLoop env retries remaining w = initializeSession env 3 w1 ∧
        w1.sleeps = w.sleeps ++ backoffWaits retries (retries - remaining) ∧
        w1.storageOps ≤ w.storageOps + 2 * remaining ∧
        w1.sessionData = w.sessionData ∧ w1.storage = w.storage ∧
        w1.seedsGenerated = w.seedsGenerated := by
  intro remaining
  induction remaining with
  | zero => intro w h; omega
  | succ n ih =>
    intro w _ hle hall
    rw [restoreSessionLoop]
    rw [everyRestoreFails] at hall
    have step : ∀ w1 : World, w1.sleeps = w.sleeps → w1.storageOps ≤ w.storageOps + 2 →
        w1.sessionData = w.sessionData → w1.storage = w.storage →
        w1.seedsGenerated = w.seedsGenerated →
        everyRestoreFails env.storageFails w1.storageOps n = true →
        ∃ w2 : World,
          restoreSessionLoop env retries n (restoreCatch env retries (retries - (n + 1)) w1) =
            initializeSession env 3 w2 ∧
          w2.sleeps = w.sleeps ++ backoffWaits retries (retries - (n + 1)) ∧
          w2.storageOps ≤ w.storageOps + 2 * (n + 1) ∧
          w2.sessionData = w.sessionData ∧ w2.storage = w.storage ∧
          w2.seedsGenerated = w.seedsGenerated := by
      intro w1 hsl hops hsd hst hsg hrest
      cases n with
      | zero =>
        have hnot : ¬ (retries - (0 + 1) < retries - 1) := by omega
        have e : retries - (0 + 1) = retries - 1 := rfl
        refine ⟨w1, ?_, ?_, by omega, hsd, hst, hsg⟩
        · simp only [restoreSessionLoop, restoreCatch, if_neg hnot]
        · rw [e, backoffWaits_last, List.append_nil, hsl]
      | succ m =>
        have hlt : retries - (m + 1 + 1) < retries - 1 := by omega
        simp only [restoreCatch, if_pos hlt]
        obtain ⟨w2, a, b, c, d, e, f⟩ :=
          ih (sleep (500 * (retries - (m + 1 + 1) + 1)) w1) (by omega) (by omega) hrest
        have g1 : (sleep (500 * (retries - (m + 1 + 1) + 1)) w1).sleeps =
            w.sleeps ++ [500 * (retries - (m + 1 + 1) + 1)] := by
          simp [sleep, hsl]
        have g2 : (sleep (500 * (retries - (m + 1 + 1) + 1)) w1).storageOps =
            w1.storageOps := rfl
        have e2 : retries - (m + 1) = retries - (m + 1 + 1) + 1 := by omega
        rw [g1, e2] at b
        rw [g2] at c
        refine ⟨w2, a, ?_, by omega, d.trans hsd, e.trans hst, f.trans hsg⟩
        rw [b, backoffWaits_cons retries (retries - (m + 1 + 1)) (by omega)]
        simp
    cases h1 : env.storageFails w.storageOps
    · simp only [h1, Bool.false_eq_true, if_false, Bool.and_eq_true] at hall
      rw [restoreAttempt_second_get_fails env w h1 hall.1]
      exact step _ rfl (by simp) rfl rfl rfl hall.2
    · simp only [h1, if_true] at hall
      rw [restoreAttempt_get_fails env w h1]
      exact step _ rfl (by simp) rfl rfl rfl hall

/-! ## The waits and the storage calls of a whole call -/

theorem initializeAttempt_storageOps (env : Env) (w : World) :
    (∀ w1, initializeAttempt env w = .ok w1 → w1.storageOps ≤ w.storageOps + 2) ∧
    (∀ w1, initializeAttempt env w = .error w1 → w1.storageOps ≤ w.storageOps + 2) := by
  cases h1 : env.storageFails w.storageOps
  · cases h2 : env.storageFails (w.storageOps + 1)
    · rw [initializeAttempt_ok env w h1 h2]
      constructor
      · intro w1 h; cases h; simp
      · intro w1 h; cases h
    · rw [initializeAttempt_set_fails env w h1 h2]
      constructor
      · intro w1 h; cases h
      · intro w1 h; cases h; simp
  · rw [initializeAttempt_get_fails env w h1]
    constructor
    · intro w1 h; cases h
    · intro w1 h; cases h; simp

theorem initializeCatch_storageOps (env : Env) (retries i : Nat) (w : World) :
    (initializeCatch env retries i w).storageOps = w.storageOps := by
  unfold initializeCatch
  split_ifs <;> rfl

theorem initializeSessionLoop_storageOps_le (env : Env) (retries : Nat) :
    ∀ (remaining : Nat) (w : World),
      (initializeSessionLoop env retries remaining w).storageOps ≤
        w.storageOps + 2 * remaining := by
  intro remaining
  induction remaining with
  | zero => intro w; simp [initializeSessionLoop]
  | succ n ih =>
    intro w
    rw [initializeSessionLoop]
    cases hatt : initializeAttempt env w with
    | ok w1 =>
      have := (initializeAttempt_storageOps env w).1 w1 hatt
      simp only []
      omega
    | error w1 =>
      have h1 := (initializeAttempt_storageOps env w).2 w1 hatt
      have h2 := ih (initializeCatch env retries (retries - (n + 1)) w1)
      rw [initializeCatch_storageOps] at h2
      simp only []
      omega

theorem restoreAttempt_storageOps (env : Env) (w : World) :
    (∀ w1, restoreAttempt env w = .ok w1 → w1.storageOps ≤ w.storageOps + 2 + 6) ∧
    (∀ w1, restoreAttempt env w = .error w1 → w1.storageOps ≤ w.storageOps + 2) := by
  cases h1 : env.storageFails w.storageOps
  · cases h2 : env.storageFails (w.storageOps + 1)
    · cases hs : truthy w.storage.sessionSeed
      · rw [restoreAttempt_initializes env w h1 h2 hs]
        constructor
        · intro w1 h
          cases h
          have := initializeSessionLoop_storageOps_le env 3 3
            { w with storageOps := w.storageOps + 1 + 1 }
          simp only [initializeSession]
          simp only [] at this
          omega
        · intro w1 h; cases h
      · rw [restoreAttempt_restores env w h1 h2 hs]
        constructor
        · intro w1 h; cases h; simp
        · intro w1 h; cases h
    · rw [restoreAttempt_second_get_fails env w h1 h2]
      constructor
      · intro w1 h; cases h
      · intro w1 h; cases h; simp
  · rw [restoreAttempt_get_fails env w h1]
    constructor
    · intro w1 h; cases h
    · intro w1 h; cases h; simp

theorem restoreSessionLoop_storageOps_le (env : Env) (retries : Nat) :
    ∀ (remaining : Nat) (w : World), remaining ≤ retries →
      (restoreSessionLoop env retries remaining w).storageOps ≤
        w.storageOps + 2 * remaining + 6 := by
  intro remaining
  induction remaining with
  | zero => intro w _; simp [restoreSessionLoop]
  | succ n ih =>
    intro w hle
    rw [restoreSessionLoop]
    cases hatt : restoreAttempt env w with
    | ok w1 =>
      have := (restoreAttempt_storageOps env w).1 w1 hatt
      simp only []
      omega
    | error w1 =>
      have h1 := (restoreAttempt_storageOps env w).2 w1 hatt
      simp only []
      cases n with
      | zero =>
        have hnot : ¬ (retries - (0 + 1) < retries - 1) := by omega
        simp only [restoreSessionLoop, restoreCatch, if_neg hnot]
        have := initializeSessionLoop_storageOps_le env 3 3 w1
        simp only [initializeSession]
        omega
      | succ m =>
        have hlt : retries - (m + 1 + 1) < retries - 1 := by omega
        simp only [restoreCatch, if_pos hlt]
        have h2 := ih (sleep (500 * (retries - (m + 1 + 1) + 1)) w1) (by omega)
        have g : (sleep (500 * (retries - (m + 1 + 1) + 1)) w1).storageOps =
            w1.storageOps := rfl
        rw [g] at h2
        omega

theorem everyRestoreFails_of_always (fails : Nat → Bool) (h : ∀ k, fails k = true) :
    ∀ n k, everyRestoreFails fails k n = true := by
  intro n
  induction n with
  | zero => intro k; rfl
  | succ m ih => intro k; simp [everyRestoreFails, h, ih]

/-- C28, as stated, fails for `restoreSession`: with every storage call
rejecting, budget 3 sleeps 500, 1000, 500 and 1000 milliseconds, 3000 and not
1500 in all, and budget 1 sleeps 500 and 1000 although `250 * 1 * 0 = 0`;
with storage calls succeeding and rejecting in turn, budget 3 makes 12
storage calls in 6 attempts. -/
theorem restoreSession_waits_beyond_budget :
    (restoreSession failingEnv 3 World.initial).sleeps = [500, 1000, 500, 1000] ∧
    (restoreSession failingEnv 3 World.initial).sleeps.sum = 3000 ∧
    250 * 3 * (3 - 1) = 1500 ∧
    (restoreSession failingEnv 1 World.initial).sleeps = [500, 1000] ∧
    (restoreSession alternatingEnv 3 World.initial).storageOps = 12 := by
  decide

/-- C28, amended.  With budget `n` and every attempt failing, the loop of
`initializeSession` and the loop of `restoreSession` wait `500 * k`
milliseconds after the `k`-th failure for `k = 1 .. n - 1` and not after the
`n`-th: `n - 1` waits adding up to `250 * n * (n - 1)`.  For
`initializeSession` these are the waits of the call, and the call makes at
most `2 * n` storage calls whatever the storage does.  `restoreSession` goes
on with `initializeSession(3)`: the waits of the call are those of the loop if
that call persists at once, and 500 and 1000 more if every storage call keeps
rejecting; the call makes at most `2 * n + 6` storage calls. -/
theorem retry_backoff_totals (env : Env) (n : Nat) (w : World) (hn : 1 ≤ n) :
    (backoffWaits n 0).length = n - 1 ∧
    (∀ k, 1 ≤ k → k ≤ n - 1 → (backoffWaits n 0)[k - 1]? = some (500 * k)) ∧
    (backoffWaits n 0).sum = 250 * n * (n - 1) ∧
    (everyPersistFails env.storageFails w.storageOps n = true →
      (initializeSession env n w).sleeps = w.sleeps ++ backoffWaits n 0) ∧
    (initializeSession env n w).storageOps ≤ w.storageOps + 2 * n ∧
    (everyRestoreFails env.storageFails w.storageOps n = true →
      ∃ w1 : World,
        restoreSession env n w = initializeSession env 3 w1 ∧
        w1.sleeps = w.sleeps ++ backoffWaits n 0 ∧
        w1.storageOps ≤ w.storageOps + 2 * n ∧
        w1.sessionData = w.sessionData ∧ w1.storage = w.storage ∧
        w1.seedsGenerated = w.seedsGenerated ∧
        (env.storageFails w1.storageOps = false →
          env.storageFails (w1.storageOps + 1) = false →
          (restoreSession env n w).sleeps = w.sleeps ++ backoffWaits n 0) ∧
        (everyPersistFails env.storageFails w1.storageOps 3 = true →
          (restoreSession env n w).sleeps =
            w.sleeps ++ backoffWaits n 0 ++ [500, 1000])) ∧
    ((∀ k, env.storageFails k = true) →
      (restoreSession env n w).sleeps = w.sleeps ++ backoffWaits n 0 ++ [500, 1000] ∧
      (backoffWaits n 0 ++ [500, 1000]).sum = 250 * n * (n - 1) + 1500) ∧
    (restoreSession env n w).storageOps ≤ w.storageOps + 2 * n + 6 := by
  have hsum : (backoffWaits n 0).sum = 250 * n * (n - 1) := by
    obtain ⟨m, rfl⟩ : ∃ m, n = m + 1 := ⟨n - 1, by omega⟩
    rw [backoffWaits_sum]
    simp
  have hnested : ∀ w1 : World, everyPersistFails env.storageFails w1.storageOps 3 = true →
      (initializeSession env 3 w1).sleeps = w1.sleeps ++ [500, 1000] := by
    intro w1 hall
    have h := (initializeSessionLoop_all_fail_waits env 3 3 w1 (by decide) (Nat.le_refl _)
      hall).1
    have e : backoffWaits 3 (3 - 3) = [500, 1000] := by decide
    rw [e] at h
    exact h
  have hrestore : everyRestoreFails env.storageFails w.storageOps n = true →
      ∃ w1 : World,
        restoreSession env n w = initializeSession env 3 w1 ∧
        w1.sleeps = w.sleeps ++ backoffWaits n 0 ∧
        w1.storageOps ≤ w.storageOps + 2 * n ∧
        w1.sessionData = w.sessionData ∧ w1.storage = w.storage ∧
        w1.seedsGenerated = w.seedsGenerated ∧
        (env.storageFails w1.storageOps = false →
          env.storageFails (w1.storageOps + 1) = false →
          (restoreSession env n w).sleeps = w.sleeps ++ backoffWaits n 0) ∧
        (everyPersistFails env.storageFails w1.storageOps 3 = true →
          (restoreSession env n w).sleeps =
            w.sleeps ++ backoffWaits n 0 ++ [500, 1000]) := by
    intro hall
    obtain ⟨w1, a, b, c, d, e, f⟩ :=
      restoreSessionLoop_all_fail env n n w hn (Nat.le_refl _) hall
    rw [Nat.sub_self] at b
    have hr : restoreSession env n w = initializeSession env 3 w1 := a
    refine ⟨w1, a, b, c, d, e, f, ?_, ?_⟩
    · intro h1 h2
      rw [hr]
      simp only [initializeSession, initializeSessionLoop, initializeAttempt_ok env w1 h1 h2]
      exact b
    · intro hp
      rw [hr, hnested w1 hp, b]
  refine ⟨?_, ?_, hsum, ?_, ?_, hrestore, ?_, ?_⟩
  · simp [backoffWaits]
  · intro k h1 h2
    have hk : k - 1 < n - 1 := by omega
    simp only [backoffWaits, Nat.sub_zero, Nat.zero_add]
    rw [List.getElem?_map, List.getElem?_range hk]
    simp only [Option.map_some']
    congr 2
    omega
  · intro hall
    have h := (initializeSessionLoop_all_fail_waits env n n w hn (Nat.le_refl _) hall).1
    rw [Nat.sub_self] at h
    exact h
  · exact initializeSessionLoop_storageOps_le env n n w
  · intro hfail
    obtain ⟨w1, _, _, _, _, _, _, _, htot⟩ :=
      hrestore (everyRestoreFails_of_always _ hfail n _)
    refine ⟨htot (everyPersistFails_of_always _ hfail 3 _), ?_⟩
    rw [List.sum_append, hsum]
    simp
  · exact restoreSessionLoop_storageOps_le env n n w (Nat.le_refl _)

/-- Witness of C28: with the default budget 3 and every storage call
rejecting, `initializeSession` waits 500 and 1000 milliseconds, 1500 in all,
and `restoreSession` waits these and then 500 and 1000 again. -/
theorem retry_backoff_totals_witness :
    (initializeSession failingEnv 3 World.initial).sleeps = [] ++ backoffWaits 3 0 ∧
    (backoffWaits 3 0).sum = 250 * 3 * (3 - 1) ∧
    backoffWaits 3 0 = [500, 1000] ∧
    (restoreSession failingEnv 3 World.initial).sleeps =
      [] ++ backoffWaits 3 0 ++ [500, 1000] :=
  ⟨(retry_backoff_totals failingEnv 3 World.initial (by decide)).2.2.2.1 (by decide),
    (retry_backoff_totals failingEnv 3 World.initial (by decide)).2.2.1, by decide,
    ((retry_backoff_totals failingEnv 3 World.initial (by decide)).2.2.2.2.2.2.1
      (fun _ => rfl)).1⟩

/-! ## The invariant of `sessionData` -/

theorem sessionInvariant_of_usable (sd : SessionData) (h : truthy sd.seed = true) :
    sessionInvariant sd :=
  fun _ => (truthy_iff _).1 h

theorem initializeAttempt_error_sessionData (env : Env) (w w1 : World)
    (h : initializeAttempt env w = .error w1) : w1.sessionData = w.sessionData := by
  cases h1 : env.storageFails w.storageOps
  · cases h2 : env.storageFails (w.storageOps + 1)
    · rw [initializeAttempt_ok env w h1 h2] at h
      cases h
    · rw [initializeAttempt_set_fails env w h1 h2] at h
      cases h
      rfl
  · rw [initializeAttempt_get_fails env w h1] at h
    cases h
    rfl

theorem initializeCatch_invariant (env : Env) (retries i : Nat) (w : World)
    (h : sessionInvariant w.sessionData) :
    sessionInvariant (initializeCatch env retries i w).sessionData := by
  unfold initializeCatch
  split_ifs
  · apply sessionInvariant_of_usable
    simp [nextSeed, dateNow, truthy_generateSessionSeed]
  · exact h

theorem initializeSessionLoop_invariant (env : Env) (retries : Nat) :
    ∀ (remaining : Nat) (w : World), sessionInvariant w.sessionData →
      sessionInvariant (initializeSessionLoop env retries remaining w).sessionData := by
  intro remaining
  induction remaining with
  | zero => intro w h; exact h
  | succ n ih =>
    intro w h
    rw [initializeSessionLoop]
    cases hatt : initializeAttempt env w with
    | ok w1 =>
      exact sessionInvariant_of_usable _ (initializeAttempt_ok_usable env w w1 hatt).2.1
    | error w1 =>
      apply ih
      apply initializeCatch_invariant
      rw [initializeAttempt_error_sessionData env w w1 hatt]
      exact h

theorem restoreAttempt_error_sessionData (env : Env) (w w1 : World)
    (h : restoreAttempt env w = .error w1) : w1.sessionData = w.sessionData := by
  cases h1 : env.storageFails w.storageOps
  · cases h2 : env.storageFails (w.storageOps + 1)
    · cases hs : truthy w.storage.sessionSeed
      · rw [restoreAttempt_initializes env w h1 h2 hs] at h
        cases h
      · rw [restoreAttempt_restores env w h1 h2 hs] at h
        cases h
    · rw [restoreAttempt_second_get_fails env w h1 h2] at h
      cases h
      rfl
  · rw [restoreAttempt_get_fails env w h1] at h
    cases h
    rfl

theorem restoreSessionLoop_invariant (env : Env) (retries : Nat) :
    ∀ (remaining : Nat) (w : World), sessionInvariant w.sessionData →
      sessionInvariant (restoreSessionLoop env retries remaining w).sessionData := by
  intro remaining
  induction remaining with
  | zero => intro w h; exact h
  | succ n ih =>
    intro w h
    rw [restoreSessionLoop]
    cases hatt : restoreAttempt env w with
    | ok w1 =>
      exact sessionInvariant_of_usable _ (restoreAttempt_ok_usable env w w1 hatt).2
    | error w1 =>
      apply ih
      have hsd := restoreAttempt_error_sessionData env w w1 hatt
      unfold restoreCatch
      split_ifs
      · show sessionInvariant w1.sessionData
        rw [hsd]
        exact h
      · apply initializeSessionLoop_invariant
        rw [hsd]
        exact h

theorem infoReadLoop_sessionData (env : Env) :
    ∀ (n : Nat) (w : World), (infoReadLoop env n w).2.sessionData = w.sessionData := by
  intro n
  induction n with
  | zero => intro w; rfl
  | succ m ih =>
    intro w
    rw [infoReadLoop]
    cases hf : env.storageFails w.storageOps
    · simp [storageGet, hf]
    · simp only [storageGet, hf, if_true]
      rw [ih]
      split_ifs <;> rfl

theorem updateProfileCache_invariant (stored : Option StoredData) (sd : SessionData)
    (h : sessionInvariant sd) : sessionInvariant (updateProfileCache stored sd) := by
  cases stored with
  | none => exact h
  | some st =>
    cases hp : st.profile with
    | none =>
      simp only [updateProfileCache, hp]
      exact h
    | some p =>
      simp only [updateProfileCache, hp]
      split_ifs
      · exact h
      · exact h

theorem buildSessionInfo_sessionData (env : Env) (stored : Option StoredData) (w : World) :
    (buildSessionInfo env stored w).2.sessionData = w.sessionData := by
  simp only [buildSessionInfo, dateNow]
  split_ifs <;> rfl

/-- C24: the invariant of `sessionData`, that `initialized = true` implies a
non-empty seed, holds of the initial value and is preserved by
`restoreSession`, `initializeSession`, `handleGetSessionSeed`,
`handleRegenerateIdentity` and `getSessionInfo`, for every attempt budget and
every behaviour of the storage and of the tabs. -/
theorem sessionInvariant_preserved :
    sessionInvariant SessionData.initial ∧
    ∀ (env : Env) (tabsQuery : Except String (List Tab)) (retries : Nat) (w : World),
      sessionInvariant w.sessionData →
      sessionInvariant (restoreSession env retries w).sessionData ∧
      sessionInvariant (initializeSession env retries w).sessionData ∧
      sessionInvariant (handleGetSessionSeed env w).2.sessionData ∧
      sessionInvariant (handleRegenerateIdentity env tabsQuery w).2.1.sessionData ∧
      sessionInvariant (getSessionInfo env w).2.sessionData := by
  refine ⟨?_, ?_⟩
  · intro h
    exact absurd h (by decide)
  · intro env tabsQuery retries w h
    refine ⟨?_, ?_, ?_, ?_, ?_⟩
    · exact restoreSessionLoop_invariant env retries retries w h
    · exact initializeSessionLoop_invariant env retries retries w h
    · exact sessionInvariant_of_usable _ (handleGetSessionSeed_leaves_usable env w).2.1
    · cases hc : env.storageFails w.storageOps
      · have hi : sessionInvariant
            (initializeSession env 3
              { w with storageOps := w.storageOps + 1, storage := StoredData.empty }).sessionData :=
          initializeSessionLoop_invariant env 3 3 _ h
        cases tabsQuery <;> simpa [handleRegenerateIdentity, storageClear, hc] using hi
      · simpa [handleRegenerateIdentity, storageClear, hc] using h
    · have h1 : sessionInvariant
          (if (!w.sessionData.initialized) = true then restoreSession env 3 w
            else w).sessionData := by
        split_ifs
        · exact restoreSessionLoop_invariant env 3 3 w h
        · exact h
      simp only [getSessionInfo]
      rw [buildSessionInfo_sessionData]
      apply updateProfileCache_invariant
      rw [infoReadLoop_sessionData]
      exact h1

/-- Witness of C24: a `getSessionInfo` call on the initial world with every
storage operation rejecting leaves a state that satisfies the invariant. -/
theorem sessionInvariant_preserved_witness :
    sessionInvariant (getSessionInfo failingEnv World.initial).2.sessionData :=
  (sessionInvariant_preserved.2 failingEnv (.ok []) 3 World.initial
    (fun h => absurd h (by decide))).2.2.2.2

end Chameleon
